import Mathlib

/-!
Verification development for the `rpg_content_cli` content-authoring tool
(`tools/rpg_content_cli`): a shallow embedding of its JSON document model,
the path addressing engine (`persistence/repositories.py`), the schema
validators (`validation/schemas.py`, `commands/store.py`) and the
quest-prerequisite cycle checker (`validation/cross_refs.py`), together with
theorems settling the specification's testable properties.

Python values are modelled by the inductive `JVal`; Python dicts are
association lists with first-match lookup (Python dicts have unique keys, on
which both semantics agree). Python's numeric tower quirk that `bool` is a
subclass of `int` is modelled explicitly (`isIntV` accepts booleans), as is
the fact that `dict` and `list` values are unhashable, so that testing them
for membership in a `frozenset` raises `TypeError`. Validators are embedded
in the `Except String` monad whose error values stand for the Python
exceptions the code could raise (`KeyError`, `AttributeError`, `TypeError`);
every other construct of the source is total.
-/

namespace Rpg

/-- The in-memory JSON document model: Python `None`/`bool`/`int`/`float`/
`str`/`list`/`dict` trees as produced by the JSON(5) parser. Floats are
modelled as rationals (the validators only ever compare them). -/
inductive JVal where
  | null
  | bool (b : Bool)
  | int (n : Int)
  | float (q : Rat)
  | str (s : String)
  | arr (xs : List JVal)
  | obj (fs : List (String × JVal))
  deriving Inhabited

/-- First-match lookup in an association list, i.e. Python `d[k]` / `k in d`
restricted to the unique-key dictionaries the program builds. -/
def dget : List (String × JVal) → String → Option JVal
  | [], _ => none
  | (k', v) :: t, k => if k' = k then some v else dget t k

/-- Python `k in d`. -/
def hasKey (fs : List (String × JVal)) (k : String) : Bool :=
  (dget fs k).isSome

/-- Python `d.get(k)`: `None` when the key is absent (JSON `null` and Python
`None` are both `JVal.null`, exactly as in the source, where `d.get(k)` on an
absent key and a stored JSON `null` are indistinguishable). -/
def pyGet (fs : List (String × JVal)) (k : String) : JVal :=
  (dget fs k).getD .null

/-- Python `d.get(k, default)`. -/
def pyGetD (fs : List (String × JVal)) (k : String) (d : JVal) : JVal :=
  (dget fs k).getD d

/-- Python `d[k] = v`: replace the binding if the key exists, else append
(insertion order is preserved, as for Python dicts). -/
def dset : List (String × JVal) → String → JVal → List (String × JVal)
  | [], k, v => [(k, v)]
  | (k', v') :: t, k, v => if k' = k then (k, v) :: t else (k', v') :: dset t k v

/-- Python `del d[k]` (first occurrence). -/
def ddel : List (String × JVal) → String → List (String × JVal)
  | [], _ => []
  | (k', v') :: t, k => if k' = k then t else (k', v') :: ddel t k

/-- `isinstance(v, str)`. -/
def isStrV : JVal → Bool
  | .str _ => true
  | _ => false

/-- `isinstance(v, bool)`. -/
def isBoolV : JVal → Bool
  | .bool _ => true
  | _ => false

/-- `isinstance(v, int)`. In Python `bool` is a subclass of `int`, so
booleans satisfy this check. -/
def isIntV : JVal → Bool
  | .int _ => true
  | .bool _ => true
  | _ => false

/-- `isinstance(v, (int, float))` (booleans included, as in Python). -/
def isNumV : JVal → Bool
  | .int _ => true
  | .bool _ => true
  | .float _ => true
  | _ => false

/-- `isinstance(v, dict)`. -/
def isDictV : JVal → Bool
  | .obj _ => true
  | _ => false

/-- `isinstance(v, list)`. -/
def isListV : JVal → Bool
  | .arr _ => true
  | _ => false

/-- `v is None`. -/
def isNullV : JVal → Bool
  | .null => true
  | _ => false

/-- Numeric value of a Python number (`True` counts as 1, `False` as 0). -/
def toRatNum : JVal → Rat
  | .int n => (n : Rat)
  | .bool b => if b then 1 else 0
  | .float q => q
  | _ => 0

/-- Integer value of a Python `int`-or-`bool`. -/
def toIntNum : JVal → Int
  | .int n => n
  | .bool b => if b then 1 else 0
  | _ => 0

end Rpg

namespace Rpg

/-! ## Path addressing engine (`persistence/repositories.py`) -/

/-- A parsed path token: a string map key or an integer sequence index
(`parse_path_tokens` produces `list[str | int]`). The index is an `Int`
because `set_by_path`/`delete_by_path` defensively test `token < 0`. -/
inductive Tok where
  | key (k : String)
  | idx (i : Int)
  deriving Repr, DecidableEq

/-- Python falsiness of `s.strip()`: the string is empty or all whitespace
(`strip` is only ever used for this emptiness test in the source). -/
def isBlankStr (s : String) : Bool :=
  s.data.all Char.isWhitespace

/-- Decimal value of a digit string, as Python `int(raw)` on an all-digit
string. -/
def digitsToNat (cs : List Char) : Nat :=
  cs.foldl (fun n c => n * 10 + (c.toNat - 48)) 0

/-- Flush the pending key buffer into the token list (`parse_path_tokens`
appends `key_buffer` whenever it is non-empty). -/
def flushBuf (acc : List Tok) (buf : List Char) : List Tok :=
  if buf.isEmpty then acc else acc ++ [.key (String.mk buf)]

/-- The scanning loop of `parse_path_tokens`: `.` separates keys, `[digits]`
is an integer index; the buffer is flushed on `.`, `[` and at end of input.
The `fuel` argument only makes the recursion structural: every recursive
call consumes at least one input character, so with `fuel` exceeding the
input length (as `parse_path_tokens` passes it) the out-of-fuel branch is
unreachable and the loop agrees with the source's scan. -/
def parseLoop : Nat → List Char → List Char → List Tok → Except String (List Tok)
  | _, [], buf, acc => .ok (flushBuf acc buf)
  | 0, _ :: _, _, _ => .error "out of fuel"
  | fuel + 1, c :: rest, buf, acc =>
    if c = '.' then
      parseLoop fuel rest [] (flushBuf acc buf)
    else if c = '[' then
      let acc' := flushBuf acc buf
      let raw := rest.takeWhile (fun d => !(d == ']'))
      match rest.dropWhile (fun d => !(d == ']')) with
      | [] => .error "Missing closing \x27]\x27"
      | _ :: rem' =>
        if raw ≠ [] ∧ raw.all Char.isDigit then
          parseLoop fuel rem' [] (acc' ++ [.idx (Int.ofNat (digitsToNat raw))])
        else
          .error ("Index \x27" ++ String.mk raw ++ "\x27 is not numeric")
    else
      parseLoop fuel rest (buf ++ [c]) acc

/-- `parse_path_tokens`: tokenize a path expression, rejecting empty or
token-free paths (`InvalidPathError` is the `Except.error` case). -/
def parse_path_tokens (path : String) : Except String (List Tok) := do
  if isBlankStr path then
    throw "Path cannot be empty"
  let toks ← parseLoop (path.data.length + 1) path.data [] []
  if toks = [] then
    throw "Path cannot be empty"
  return toks

/-- One traversal-plus-leaf step of `set_by_path`. The result pairs the
post-state of the target with the error raised, if any: Python mutates the
tree in place, so containers materialized by `_ensure_container` (and deeper
partial writes) survive a later `PathAccessError`, which this pair captures.
For a non-final string token on a map, an absent or `None` entry is replaced
by a fresh list (when the next token is an index) or map, exactly as
`_ensure_container` does; indices must be in bounds at every step. -/
def setTokens (target : JVal) (toks : List Tok) (value : JVal) : JVal × Option String :=
  match toks, target with
  | [], _ => (target, none)
  | [.key k], .obj fs => (.obj (dset fs k value), none)
  | [.key k], _ => (target, some ("Cannot set key \x27" ++ k ++ "\x27 on non-object"))
  | [.idx i], .arr xs =>
    if i < 0 ∨ (xs.length : Int) ≤ i then
      (target, some ("Index [" ++ toString i ++ "] out of bounds (size=" ++ toString xs.length ++ ")"))
    else
      (.arr (xs.set i.toNat value), none)
  | [.idx i], _ => (target, some ("Cannot set index [" ++ toString i ++ "] on non-array"))
  | .key k :: next :: rest, .obj fs =>
    let child :=
      if ¬ hasKey fs k ∨ isNullV (pyGet fs k) then
        match next with
        | .idx _ => JVal.arr []
        | .key _ => JVal.obj []
      else pyGet fs k
    let res := setTokens child (next :: rest) value
    (.obj (dset fs k res.1), res.2)
  | .key k :: _ :: _, _ =>
    (target, some ("Cannot access key \x27" ++ k ++ "\x27 on non-object"))
  | .idx i :: next :: rest, .arr xs =>
    if h : i < 0 ∨ (xs.length : Int) ≤ i then
      (target, some ("Index [" ++ toString i ++ "] out of bounds (size=" ++ toString xs.length ++ ")"))
    else
      let res := setTokens (xs.get ⟨i.toNat, by omega⟩) (next :: rest) value
      (.arr (xs.set i.toNat res.1), res.2)
  | .idx i :: _ :: _, _ =>
    (target, some ("Cannot access index [" ++ toString i ++ "] on non-array"))

/-- One traversal-plus-leaf step of `delete_by_path`; traversal is identical
to `setTokens` (including container creation), the leaf removes a map key
(error when absent) or a sequence element by index. -/
def deleteTokens (target : JVal) (toks : List Tok) : JVal × Option String :=
  match toks, target with
  | [], _ => (target, none)
  | [.key k], .obj fs =>
    if hasKey fs k then
      (.obj (ddel fs k), none)
    else
      (target, some ("Key \x27" ++ k ++ "\x27 does not exist"))
  | [.key k], _ => (target, some ("Cannot delete key \x27" ++ k ++ "\x27 on non-object"))
  | [.idx i], .arr xs =>
    if i < 0 ∨ (xs.length : Int) ≤ i then
      (target, some ("Index [" ++ toString i ++ "] out of bounds (size=" ++ toString xs.length ++ ")"))
    else
      (.arr (xs.eraseIdx i.toNat), none)
  | [.idx i], _ => (target, some ("Cannot delete index [" ++ toString i ++ "] on non-array"))
  | .key k :: next :: rest, .obj fs =>
    let child :=
      if ¬ hasKey fs k ∨ isNullV (pyGet fs k) then
        match next with
        | .idx _ => JVal.arr []
        | .key _ => JVal.obj []
      else pyGet fs k
    let res := deleteTokens child (next :: rest)
    (.obj (dset fs k res.1), res.2)
  | .key k :: _ :: _, _ =>
    (target, some ("Cannot access key \x27" ++ k ++ "\x27 on non-object"))
  | .idx i :: next :: rest, .arr xs =>
    if h : i < 0 ∨ (xs.length : Int) ≤ i then
      (target, some ("Index [" ++ toString i ++ "] out of bounds (size=" ++ toString xs.length ++ ")"))
    else
      let res := deleteTokens (xs.get ⟨i.toNat, by omega⟩) (next :: rest)
      (.arr (xs.set i.toNat res.1), res.2)
  | .idx i :: _ :: _, _ =>
    (target, some ("Cannot access index [" ++ toString i ++ "] on non-array"))

/-- Error kinds of the path engine, mirroring `InvalidPathError` (path syntax)
versus `PathAccessError` (traversal/leaf failure). -/
inductive PathErr where
  | invalidPath (msg : String)
  | accessError (msg : String)
  deriving Repr, DecidableEq

/-- `set_by_path(target, path, value)`: parse, then walk-and-write. The first
component is the post-state of `target` (unchanged when parsing fails;
possibly partially mutated when traversal fails). -/
def set_by_path (target : JVal) (path : String) (value : JVal) : JVal × Option PathErr :=
  match parse_path_tokens path with
  | .error m => (target, some (.invalidPath m))
  | .ok toks =>
    let res := setTokens target toks value
    (res.1, res.2.map .accessError)

/-- `delete_by_path(target, path)`. -/
def delete_by_path (target : JVal) (path : String) : JVal × Option PathErr :=
  match parse_path_tokens path with
  | .error m => (target, some (.invalidPath m))
  | .ok toks =>
    let res := deleteTokens target toks
    (res.1, res.2.map .accessError)

/-- Modelled from the spec: the repository has no path *getter* (only `set` /
`delete`); section 8's round-trip property reads back through a plain
resolution of the same tokens — map-key lookup for a string token, in-bounds
indexing for an integer token, `none` on any mismatch. -/
def getTokens : JVal → List Tok → Option JVal
  | v, [] => some v
  | v, .key k :: rest =>
    match v with
    | .obj fs =>
      match dget fs k with
      | some c => getTokens c rest
      | none => none
    | _ => none
  | v, .idx i :: rest =>
    match v with
    | .arr xs =>
      if h : 0 ≤ i ∧ i.toNat < xs.length then getTokens (xs.get ⟨i.toNat, h.2⟩) rest
      else none
    | _ => none

/-- `is_valid_content_id`'s character class `[a-z0-9_]`. -/
def validIdChar (c : Char) : Bool :=
  ('a' ≤ c && c ≤ 'z') || c.isDigit || c = '_'

/-- `ID_REGEX.fullmatch` on a string: `^[a-z0-9_]+$`. -/
def validIdStr (s : String) : Bool :=
  !s.data.isEmpty && s.data.all validIdChar

/-- `is_valid_content_id(value)`: a string matching `^[a-z0-9_]+$` (any
non-string value fails the `isinstance` guard). -/
def is_valid_content_id (v : JVal) : Bool :=
  match v with
  | .str s => validIdStr s
  | _ => false

/-! ## Cross-reference cycle checker (`validation/cross_refs.py`) -/

/-- First-match lookup in the dependency map. -/
def depsGet : List (String × List String) → String → Option (List String)
  | [], _ => none
  | (k', v) :: t, k => if k' = k then some v else depsGet t k

/-- `deps[quest_id] = ...`: replace the binding in place when the key exists
(Python dicts keep the original insertion position), else append. -/
def depsSet : List (String × List String) → String → List String → List (String × List String)
  | [], k, v => [(k, v)]
  | (k', v') :: t, k, v => if k' = k then (k, v) :: t else (k', v') :: depsSet t k v

/-- The dependency-graph construction of `_find_circular_quest_deps`: one
entry per dict quest with a valid id, mapping it to the string entries of
`prerequisites.requiresQuestsCompleted` (missing or ill-typed prerequisite
blocks count as no dependencies). -/
def buildDeps : List JVal → List (String × List String) → List (String × List String)
  | [], deps => deps
  | q :: qs, deps =>
    match q with
    | .obj fs =>
      match pyGet fs "id" with
      | .str s =>
        if validIdStr s then
          let prereqs := pyGetD fs "prerequisites" (.obj [])
          let requires :=
            match prereqs with
            | .obj pfs =>
              match pyGetD pfs "requiresQuestsCompleted" (.arr []) with
              | .arr rs => rs.filterMap (fun r => match r with | .str t => some t | _ => none)
              | _ => []
            | _ => []
          buildDeps qs (depsSet deps s requires)
        else
          buildDeps qs deps
      | _ => buildDeps qs deps
    | _ => buildDeps qs deps

/-- The mutable state threaded through the DFS of
`_find_circular_quest_deps`: the accumulated `cycles` list, the `visited`
set and the recursion-stack set (modelled as duplicate-free lists; only
membership is ever queried). -/
structure DfsState where
  cycles : List (List String)
  visited : List String
  recStack : List String
  deriving Repr, DecidableEq

/- The recursive `dfs(node, path)` of `_find_circular_quest_deps`, with the
in-place mutations of `cycles`/`visited`/`rec_stack` threaded through
`DfsState`. The Python `path` list is appended to before the neighbor loop
and popped afterwards, so across a call the caller's `path` is unchanged;
passing it by value is therefore equivalent. `fuel` bounds the recursion
depth: each nested call either returns without recursing or first moves an
unvisited node into `visited`, so the call depth never exceeds the number of
graph keys plus one, and with that much fuel the guard is unreachable and
the function agrees with the source's unbounded recursion. -/
mutual

/-- See the comment above the `mutual` block. -/
def dfs : Nat → List (String × List String) → String → List String → DfsState → DfsState
  | 0, _, _, _, st => st
  | fuel + 1, deps, node, path, st =>
    if node ∈ st.recStack then
      let cycleStart := path.indexOf node
      { st with cycles := st.cycles ++ [path.drop cycleStart ++ [node]] }
    else if node ∈ st.visited then
      st
    else
      let st1 : DfsState :=
        { st with visited := st.visited ++ [node], recStack := st.recStack ++ [node] }
      let path1 := path ++ [node]
      let st2 := dfsList fuel deps ((depsGet deps node).getD []) path1 st1
      { st2 with recStack := st2.recStack.erase node }
termination_by fuel _ _ _ _ => (fuel, 0)

/-- The `for neighbor in deps.get(node, []): dfs(neighbor, path)` loop. -/
def dfsList : Nat → List (String × List String) → List String → List String → DfsState → DfsState
  | _, _, [], _, st => st
  | fuel, deps, n :: ns, path, st => dfsList fuel deps ns path (dfs fuel deps n path st)
termination_by fuel _ ns _ _ => (fuel, ns.length + 1)

end

/-- `_find_circular_quest_deps(quests)`: build the dependency graph, then run
the DFS from every unvisited key in insertion order. -/
def _find_circular_quest_deps (quests : List JVal) : List (List String) :=
  let deps := buildDeps quests []
  let st := deps.foldl
    (fun st p => if p.1 ∈ st.visited then st else dfs (deps.length + 1) deps p.1 [] st)
    ⟨[], [], []⟩
  st.cycles

/-- `validate_cross_references`: one issue per discovered cycle (the
`_extract_ids` sets computed by the source are never used for issues). -/
def validate_cross_references (quests_pack items_pack recipes_pack : JVal) : List String :=
  let _ := items_pack
  let _ := recipes_pack
  match quests_pack with
  | .obj fs =>
    match pyGetD fs "quests" (.arr []) with
    | .arr qs =>
      (_find_circular_quest_deps qs).map
        (fun cycle => "$quests: circular dependency detected: " ++ String.intercalate " -> " cycle)
    | _ => []
  | _ => []

/-- The spec's precondition for the round-trip property: every non-final
segment already resolves to a container of the matching kind — a map entry
(present and non-null) for a string segment, an in-bounds element for an
integer segment. -/
def preOk : JVal → List Tok → Bool
  | _, [] => true
  | _, [_] => true
  | v, .key k :: next :: rest =>
    match v with
    | .obj fs =>
      match dget fs k with
      | some c => ¬ isNullV c && preOk c (next :: rest)
      | none => false
    | _ => false
  | v, .idx i :: next :: rest =>
    match v with
    | .arr xs =>
      if h : 0 ≤ i ∧ i.toNat < xs.length then preOk (xs.get ⟨i.toNat, h.2⟩) (next :: rest)
      else false
    | _ => false

end Rpg

namespace Rpg

/-! ## Path engine lemmas and claim theorems -/

@[simp]
theorem dget_dset_self (fs : List (String × JVal)) (k : String) (v : JVal) :
    dget (dset fs k v) k = some v := by
  induction fs with
  | nil => simp [dset, dget]
  | cons p t ih =>
    by_cases h : p.1 = k
    · cases p
      simp_all [dset, dget]
    · cases p
      simp_all [dset, dget]

theorem hasKey_of_dget {fs : List (String × JVal)} {k : String} {c : JVal}
    (h : dget fs k = some c) : hasKey fs k = true := by
  simp [hasKey, h]

/-- **C2 (amended)** — when `set_by_path` or `delete_by_path` fails with a
`PathAccessError` on a single-segment path (so no traversal, hence no
container creation, happens), the document is unchanged. For longer paths the
counterexample `claim_C2_counterexample` shows that containers materialized
while walking earlier segments survive the failure, so the original claim's
"no partial effect on the in-memory tree" holds only up to those intermediate
containers: the failed leaf write or delete itself is never applied. -/
theorem claim_C2_amended (doc : JVal) (t : Tok) (v : JVal) :
    (∀ post e, setTokens doc [t] v = (post, some e) → post = doc) ∧
    (∀ post e, deleteTokens doc [t] = (post, some e) → post = doc) := by
  constructor
  · intro post e h
    cases t with
    | key k =>
      cases doc <;> simp [setTokens] at h <;> tauto
    | idx i =>
      cases doc <;> simp [setTokens] at h <;> first
        | tauto
        | (split at h <;> simp_all)
  · intro post e h
    cases t with
    | key k =>
      cases doc <;> simp [deleteTokens] at h <;> first
        | tauto
        | (split at h <;> simp_all)
    | idx i =>
      cases doc <;> simp [deleteTokens] at h <;> first
        | tauto
        | (split at h <;> simp_all)

/-- Witness for `claim_C2_amended` at a concrete input: setting or deleting
the key `"a"` on the non-object `0` fails and leaves the document unchanged. -/
theorem claim_C2_witness :
    (setTokens (.int 0) [.key "a"] (.int 1)).1 = .int 0 ∧
    (deleteTokens (.int 0) [.key "a"]).1 = .int 0 := by
  constructor
  · exact (claim_C2_amended (.int 0) (.key "a") (.int 1)).1 _ _ rfl
  · exact (claim_C2_amended (.int 0) (.key "a") (.int 1)).2 _ _ rfl

/-- **C2 (counterexample)** — `set_by_path({}, "a[0]", 5)` fails with a
`PathAccessError` (index out of bounds) yet leaves the document changed:
`_ensure_container` has already materialized the empty list at key `"a"`,
so the failed operation does have a partial effect, contradicting the claim
that the target document is left unchanged. -/
theorem claim_C2_counterexample :
    set_by_path (.obj []) "a[0]" (.int 5) =
      (.obj [("a", .arr [])], some (.accessError "Index [0] out of bounds (size=0)")) ∧
    (JVal.obj [("a", .arr [])] ≠ .obj []) := by
  refine ⟨rfl, ?_⟩
  simp

/-- **C4** — `set_by_path` addressing a sequence index `i < 0` or
`i ≥ length` fails with a `PathAccessError` and returns the sequence
unchanged (in particular its length is unchanged and nothing is appended),
both when the index is the final token and when it is an intermediate one.
(Negative indices cannot even be produced by `parse_path_tokens` — `[-1]`
is rejected as `InvalidPathError` — but the engine's own `token < 0` check
fails them with `PathAccessError` as the claim states.) -/
theorem claim_C4_set_out_of_bounds (xs : List JVal) (i : Int) (v : JVal) (rest : List Tok)
    (hout : i < 0 ∨ (xs.length : Int) ≤ i) :
    (setTokens (.arr xs) (.idx i :: rest) v).1 = .arr xs ∧
    ((setTokens (.arr xs) (.idx i :: rest) v).2).isSome = true := by
  cases rest with
  | nil => simp [setTokens, hout]
  | cons t2 r2 => simp [setTokens, hout]

/-- Witness for `claim_C4_set_out_of_bounds`: setting index 5 of the
one-element list `[1]` fails and leaves the list unchanged. -/
theorem claim_C4_witness :
    ((5 : Int) < 0 ∨ (([JVal.int 1].length : Int) ≤ 5)) ∧
    (setTokens (.arr [.int 1]) [.idx 5] (.int 9)).1 = .arr [.int 1] ∧
    ((setTokens (.arr [.int 1]) [.idx 5] (.int 9)).2).isSome = true := by
  refine ⟨by norm_num, ?_⟩
  exact claim_C4_set_out_of_bounds [.int 1] 5 (.int 9) [] (by norm_num)

end Rpg

namespace Rpg

/-- **C5** — the spec's round-trip property: if every non-final segment of
the token path already resolves to a container of the matching kind
(`preOk`), and the walk of `set_by_path` completes without error, then
resolving the same path in the resulting document yields exactly the
written value. -/
theorem claim_C5_roundtrip :
    ∀ (toks : List Tok) (doc v post : JVal), toks ≠ [] → preOk doc toks = true →
      setTokens doc toks v = (post, none) → getTokens post toks = some v := by
  intro toks
  induction toks with
  | nil => intro doc v post h; exact absurd rfl h
  | cons t rest ih =>
    intro doc v post _ hpre hset
    cases rest with
    | nil =>
      cases t with
      | key k =>
        cases doc <;> simp [setTokens] at hset
        simp [← hset, getTokens]
      | idx i =>
        cases doc <;> simp [setTokens] at hset
        rename_i xs
        split at hset
        · simp at hset
        · rename_i hnb
          simp at hset
          have hb : 0 ≤ i ∧ i.toNat < (xs.set i.toNat v).length := by
            simp [List.length_set]
            omega
          simp [← hset, getTokens, hb]
          omega
    | cons t2 r2 =>
      cases t with
      | key k =>
        cases doc <;> simp [preOk] at hpre
        rename_i fs
        rcases hdg : dget fs k with _ | c
        · rw [hdg] at hpre
          simp at hpre
        · rw [hdg] at hpre
          simp at hpre
          obtain ⟨hnn, hpre2⟩ := hpre
          have hk : hasKey fs k = true := hasKey_of_dget hdg
          have hpg : pyGet fs k = c := by simp [pyGet, hdg]
          simp [setTokens, hk, hpg, hnn] at hset
          rcases hrec : setTokens c (t2 :: r2) v with ⟨c', err⟩
          rw [hrec] at hset
          simp at hset
          obtain ⟨h1, h2⟩ := hset
          subst h2
          simp [← h1, getTokens]
          exact ih c v c' (by simp) hpre2 hrec
      | idx i =>
        cases doc <;> simp [preOk] at hpre
        rename_i xs
        split at hpre
        · rename_i hb
          have hnot : ¬ (i < 0 ∨ (xs.length : Int) ≤ i) := by omega
          simp [setTokens, hnot] at hset
          rcases hrec : setTokens (xs.get ⟨i.toNat, hb.2⟩) (t2 :: r2) v with ⟨c', err⟩
          rw [List.get_eq_getElem] at hrec
          rw [hrec] at hset
          simp at hset
          obtain ⟨h1, h2⟩ := hset
          subst h2
          have hb2 : 0 ≤ i ∧ i.toNat < (xs.set i.toNat c').length := by
            simp [List.length_set]
            omega
          simp [← h1, getTokens, hb2]
          constructor
          · omega
          · refine ih _ v c' (by simp) ?_ hrec
            simpa using hpre
        · simp at hpre


/-- Witness for `claim_C5_roundtrip`: writing `7` at `a[0].b` in
`{"a": [{"b": 0}]}` and reading the same path back yields `7`. -/
theorem claim_C5_witness :
    ([Tok.key "a", Tok.idx 0, Tok.key "b"] ≠ ([] : List Tok)) ∧
    preOk (.obj [("a", .arr [.obj [("b", .int 0)]])]) [Tok.key "a", Tok.idx 0, Tok.key "b"] = true ∧
    getTokens (.obj [("a", .arr [.obj [("b", .int 7)]])]) [Tok.key "a", Tok.idx 0, Tok.key "b"] =
      some (.int 7) := by
  refine ⟨by simp, rfl, ?_⟩
  exact claim_C5_roundtrip [Tok.key "a", Tok.idx 0, Tok.key "b"]
    (.obj [("a", .arr [.obj [("b", .int 0)]])]) (.int 7)
    (.obj [("a", .arr [.obj [("b", .int 7)]])]) (by simp) rfl rfl

end Rpg

namespace Rpg

/-! ## Cycle checker claim theorems -/

/-- A quest with the given id whose `requiresQuestsCompleted` list is the
given list of quest-id strings. -/
def questReq (i : String) (reqs : List String) : JVal :=
  .obj [("id", .str i), ("prerequisites", .obj [("requiresQuestsCompleted", .arr (reqs.map JVal.str))])]

/-- The quest `"a"` listing itself `m` times in `requiresQuestsCompleted`. -/
def selfLoopQuest (m : Nat) : JVal :=
  questReq "a" (List.replicate m "a")

/-- **C3 (counterexample)** — a quest that lists the same prerequisite id
twice makes `_find_circular_quest_deps` report the same cycle twice: for the
single quest `"a"` with `requiresQuestsCompleted = ["a", "a"]` the result
contains the cycle `["a", "a"]` two times, contradicting the claim that no
cycle is ever reported more than once. -/
theorem claim_C3_counterexample :
    _find_circular_quest_deps [selfLoopQuest 2] = [["a", "a"], ["a", "a"]] ∧
    List.count ["a", "a"] (_find_circular_quest_deps [selfLoopQuest 2]) = 2 := by
  have hv : validIdStr "a" = true := by decide
  have h : _find_circular_quest_deps [selfLoopQuest 2] = [["a", "a"], ["a", "a"]] := by
    simp [_find_circular_quest_deps, selfLoopQuest, questReq, buildDeps, depsSet, depsGet,
      dfs, dfsList, pyGet, pyGetD, dget, hv]
  refine ⟨h, ?_⟩
  rw [h]
  decide

theorem filterMap_replicate_str (m : Nat) :
    (List.replicate m (JVal.str "a")).filterMap
      (fun r => match r with | .str t => some t | _ => none) = List.replicate m "a" := by
  induction m with
  | zero => simp
  | succ n ih => simp [List.replicate_succ, ih]

theorem dfsList_selfloop (deps : List (String × List String)) (m : Nat)
    (c : List (List String)) :
    dfsList 1 deps (List.replicate m "a") ["a"] ⟨c, ["a"], ["a"]⟩ =
      ⟨c ++ List.replicate m ["a", "a"], ["a"], ["a"]⟩ := by
  induction m generalizing c with
  | zero => simp [dfsList]
  | succ n ih =>
    rw [List.replicate_succ]
    simp only [dfsList, dfs]
    simp [List.indexOf_cons_self]
    rw [ih]
    simp [List.replicate_succ]

/-- **C3 (amended)** — each cycle is reported once per traversed back edge,
not once per cycle: when quest `"a"` lists itself `m` times in
`requiresQuestsCompleted`, the DFS traverses the self-loop edge `m` times
and reports the cycle `["a", "a"]` exactly `m` times (once for `m = 1`, and
once per duplicate occurrence beyond that). -/
theorem claim_C3_amended (m : Nat) :
    _find_circular_quest_deps [selfLoopQuest m] = List.replicate m ["a", "a"] := by
  have hv : validIdStr "a" = true := by decide
  have hfm := filterMap_replicate_str m
  simp [_find_circular_quest_deps, selfLoopQuest, questReq, buildDeps, depsSet, depsGet,
    pyGet, pyGetD, dget, hfm, dfs, hv]
  rw [dfsList_selfloop]
  simp

/-- **C7** — for any two distinct valid quest ids `a` and `b` that list each
other as prerequisites, the cycle checker reports a cycle containing both
ids, whichever of the two declaration orders the quests list uses (the
reported cycle is `[a, b, a]` when `a` is declared first and `[b, a, b]`
otherwise). -/
theorem claim_C7_two_cycle (a b : String) (ha : validIdStr a = true)
    (hb : validIdStr b = true) (hne : a ≠ b) :
    (∃ c ∈ _find_circular_quest_deps [questReq a [b], questReq b [a]], a ∈ c ∧ b ∈ c) ∧
    (∃ c ∈ _find_circular_quest_deps [questReq b [a], questReq a [b]], a ∈ c ∧ b ∈ c) := by
  have h1 : _find_circular_quest_deps [questReq a [b], questReq b [a]] = [[a, b, a]] := by
    simp [_find_circular_quest_deps, questReq, buildDeps, depsSet, depsGet, dfs, dfsList,
      pyGet, pyGetD, dget, ha, hb, hne, Ne.symm hne, List.indexOf_cons_self]
  have h2 : _find_circular_quest_deps [questReq b [a], questReq a [b]] = [[b, a, b]] := by
    simp [_find_circular_quest_deps, questReq, buildDeps, depsSet, depsGet, dfs, dfsList,
      pyGet, pyGetD, dget, ha, hb, hne, Ne.symm hne, List.indexOf_cons_self]
  rw [h1, h2]
  refine ⟨⟨[a, b, a], by simp, by simp, by simp⟩, ⟨[b, a, b], by simp, by simp, by simp⟩⟩

/-- Witness for `claim_C7_two_cycle` at the concrete ids `"a"` and `"b"`. -/
theorem claim_C7_witness :
    (∃ c ∈ _find_circular_quest_deps [questReq "a" ["b"], questReq "b" ["a"]],
      "a" ∈ c ∧ "b" ∈ c) ∧
    (∃ c ∈ _find_circular_quest_deps [questReq "b" ["a"], questReq "a" ["b"]],
      "a" ∈ c ∧ "b" ∈ c) :=
  claim_C7_two_cycle "a" "b" (by decide) (by decide) (by decide)

end Rpg

namespace Rpg

/-! ## Schema validators (`validation/schemas.py`)

The validators are embedded in `Except String`: the error strings stand for
the Python exceptions the code could raise. The fallible primitives are
exactly the partial Python operations the source applies to input data —
dict subscription (`KeyError`), `.strip()` on a non-string
(`AttributeError`), numeric comparison of non-numbers (`TypeError`), and
`frozenset` membership of an unhashable value (`TypeError`). Everything
else is total. -/

/-- The exception raised by `x in some_frozenset` when `x` is an unhashable
`list` or `dict`. -/
def unhashableTypeErrMsg : String := "TypeError: unhashable type"

/-- Python `v in S` for a frozenset `S` of strings: hashable non-members
test `False`; `list`/`dict` values raise `TypeError`. -/
def pyInStrSet (v : JVal) (s : List String) : Except String Bool :=
  match v with
  | .str t => .ok (s.contains t)
  | .arr _ => .error unhashableTypeErrMsg
  | .obj _ => .error unhashableTypeErrMsg
  | _ => .ok false

/-- Python `d[k]` on a dict: `KeyError` when absent. -/
def pySubscript (fs : List (String × JVal)) (k : String) : Except String JVal :=
  match dget fs k with
  | some v => .ok v
  | none => .error "KeyError"

/-- Python truthiness of `v.strip()`: `AttributeError` unless `v` is a
string, else `True` iff the string has a non-whitespace character. -/
def pyStripTruthy (v : JVal) : Except String Bool :=
  match v with
  | .str s => .ok (!(isBlankStr s))
  | _ => .error "AttributeError: strip"

/-- Python `a < b`: defined for numbers (booleans included); `TypeError`
otherwise (the source only ever compares guarded numeric values). -/
def pyLtNum (a b : JVal) : Except String Bool :=
  if isNumV a && isNumV b then .ok (decide (toRatNum a < toRatNum b))
  else .error "TypeError: unsupported comparison"

/-- Python `v == n` against an `int` literal: numeric cross-type equality
(`True == 1`, `1.0 == 1`), `False` for non-numbers. -/
def pyEqInt (v : JVal) (n : Int) : Bool :=
  if isNumV v then toRatNum v == (n : Rat) else false

/-- Python `v == s` against a `str` value. -/
def pyEqStr (v : JVal) (s : String) : Bool :=
  match v with
  | .str t => t == s
  | _ => false

/-- Python truthiness. -/
def pyTruthy : JVal → Bool
  | .null => false
  | .bool b => b
  | .int n => n != 0
  | .float q => q != 0
  | .str s => !s.isEmpty
  | .arr xs => !xs.isEmpty
  | .obj fs => !fs.isEmpty

/-- `QUEST_DIFFICULTIES` (`config.py`; only membership is queried, so the
frozenset is modelled as a list). -/
def QUEST_DIFFICULTIES : List String := ["easy", "medium", "hard", "expert", "legendary"]

/-- `QUEST_REPEAT_KINDS` (`config.py`). -/
def QUEST_REPEAT_KINDS : List String := ["none", "daily", "weekly", "cooldown"]

/-- `QUEST_PROFESSIONS` (`config.py`). -/
def QUEST_PROFESSIONS : List String := ["miner", "lumber"]

/-- `QUEST_STEP_KINDS` (`config.py`). -/
def QUEST_STEP_KINDS : List String :=
  ["gather_item", "process_item", "craft_recipe", "market_list_item", "market_buy_item", "fight_win"]

/-- `GATHER_ACTIONS` (`config.py`). -/
def GATHER_ACTIONS : List String := ["mine", "forest"]

/-- `MARKET_CATEGORIES` (`config.py`). -/
def MARKET_CATEGORIES : List String := ["materials", "consumables", "components", "gear", "tools"]

/-- `TIER_MIN` (`config.py`). -/
def TIER_MIN : Int := 1

/-- `TIER_MAX` (`config.py`). -/
def TIER_MAX : Int := 4

/-- The constant `f"{sorted(MARKET_CATEGORIES)}"` baked into category
messages. -/
def marketCategoriesSortedRepr : String :=
  "[\x27components\x27, \x27consumables\x27, \x27gear\x27, \x27materials\x27, \x27tools\x27]"

/-- `_is_int(value, min_value=..., max_value=...)`: an `int` that is not a
`bool`, within the optional bounds. -/
def _is_int (value : JVal) (min_value max_value : Option Int) : Bool :=
  if ¬ isIntV value ∨ isBoolV value then false
  else if (match min_value with | some m => decide (toIntNum value < m) | none => false) then false
  else if (match max_value with | some m => decide (m < toIntNum value) | none => false) then false
  else true

/-- The repeated idiom `not isinstance(d.get(k), str) or not d[k].strip()`
guarding every required-string field. -/
def strFieldMissing (fs : List (String × JVal)) (k : String) : Except String Bool := do
  if ¬ isStrV (pyGet fs k) then
    return true
  else
    let v ← pySubscript fs k
    let t ← pyStripTruthy v
    return !t

/-- Decimal digits of `n` (standard div-mod rendering, structurally
recursive on a fuel that always suffices because every recursive call
strictly shrinks `n`). Mirrors Python `f"{n}"` for the natural loop
indices interpolated into issue paths. -/
def digitChar (d : Nat) : Char :=
  match d with
  | 0 => '0' | 1 => '1' | 2 => '2' | 3 => '3' | 4 => '4'
  | 5 => '5' | 6 => '6' | 7 => '7' | 8 => '8' | _ => '9'

def natStrGo (fuel n : Nat) (acc : List Char) : List Char :=
  match fuel with
  | 0 => acc
  | fuel + 1 =>
    let d := digitChar (n % 10)
    if n < 10 then d :: acc else natStrGo fuel (n / 10) (d :: acc)

/-- Decimal rendering of a natural number. -/
def natStr (n : Nat) : String :=
  String.mk (natStrGo (n + 1) n [])

/-- `set.add` on the seen-id sets, modelled as append-if-absent on a list
(only membership is ever queried). -/
def seenAdd (seen : List String) (s : String) : List String :=
  if seen.contains s then seen else seen ++ [s]

/-- The `market` sub-record block of `validate_item` (source lines 70-92). -/
def validate_item_market (market : JVal) (path : String) (issues : List String) :
    Except String (List String) := do
  if isNullV market then
    pure issues
  else
    match market with
    | .obj ms =>
      let issues :=
        if ¬ isBoolV (pyGet ms "tradable") then
          issues ++ [path ++ ".market.tradable: expected boolean"]
        else issues
      let inCat ← pyInStrSet (pyGet ms "category") MARKET_CATEGORIES
      let issues :=
        if ¬ inCat then
          issues ++ [path ++ ".market.category: expected one of " ++ marketCategoriesSortedRepr]
        else issues
      let minPrice := pyGet ms "minPrice"
      let maxPrice := pyGet ms "maxPrice"
      let issues :=
        if ¬ isNullV minPrice ∧ ¬ _is_int minPrice (some 1) none then
          issues ++ [path ++ ".market.minPrice: expected integer >= 1"]
        else issues
      let issues :=
        if ¬ isNullV maxPrice ∧ ¬ _is_int maxPrice (some 1) none then
          issues ++ [path ++ ".market.maxPrice: expected integer >= 1"]
        else issues
      if isIntV minPrice ∧ isIntV maxPrice then do
        let lt ← pyLtNum maxPrice minPrice
        pure (if lt then issues ++ [path ++ ".market.maxPrice: must be >= minPrice"] else issues)
      else
        pure issues
    | _ => pure (issues ++ [path ++ ".market: expected object"])

/-- `validate_item(item, path, issues)`. -/
def validate_item (item : JVal) (path : String) (issues : List String) :
    Except String (List String) := do
  match item with
  | .obj fs =>
    let issues :=
      if ¬ is_valid_content_id (pyGet fs "id") then
        issues ++ [path ++ ".id: invalid id, expected ^[a-z0-9_]+$"]
      else issues
    let nameBad ← strFieldMissing fs "name"
    let issues := if nameBad then issues ++ [path ++ ".name: required non-empty string"] else issues
    let descBad ← strFieldMissing fs "description"
    let issues := if descBad then issues ++ [path ++ ".description: required non-empty string"] else issues
    let maxStack := pyGet fs "maxStack"
    let issues :=
      if ¬ isNullV maxStack ∧ ¬ _is_int maxStack (some 1) none then
        issues ++ [path ++ ".maxStack: expected integer >= 1"]
      else issues
    let value := pyGet fs "value"
    let issues ←
      if isNullV value then pure issues
      else if ¬ isNumV value then pure (issues ++ [path ++ ".value: expected number >= 0"])
      else do
        let neg ← pyLtNum value (.int 0)
        pure (if neg then issues ++ [path ++ ".value: expected number >= 0"] else issues)
    validate_item_market (pyGet fs "market") path issues
  | _ => pure (issues ++ [path ++ ": expected object"])

/-- The per-entry loop of `validate_item_pack`, carrying the loop index, the
`seen_ids` set and the issue accumulator. -/
def itemsLoop (items : List JVal) (idx : Nat) (seen : List String) (issues : List String) :
    Except String (List String) := do
  match items with
  | [] => pure issues
  | item :: rest =>
    let item_path := "$items.items[" ++ natStr idx ++ "]"
    match item with
    | .obj ifs =>
      let stp :=
        match pyGet ifs "id" with
        | .str s =>
          if validIdStr s then
            (if seen.contains s then
              issues ++ [item_path ++ ".id: duplicate id \x27" ++ s ++ "\x27"]
            else issues, seenAdd seen s)
          else (issues, seen)
        | _ => (issues, seen)
      let issues ← validate_item item item_path stp.1
      itemsLoop rest (idx + 1) stp.2 issues
    | _ => itemsLoop rest (idx + 1) seen (issues ++ [item_path ++ ": expected object"])

/-- `validate_item_pack(items_pack)`. -/
def validate_item_pack (items_pack : JVal) : Except String (List String) := do
  match items_pack with
  | .obj fs =>
    let issues : List String := []
    let issues :=
      if ¬ pyEqInt (pyGet fs "schemaVersion") 1 then
        issues ++ ["$items.schemaVersion: expected 1"]
      else issues
    match pyGet fs "items" with
    | .arr items => itemsLoop items 0 [] issues
    | _ => pure (issues ++ ["$items.items: expected an array"])
  | _ => pure ["$items: root must be an object"]

/-- The per-entry loop of `validate_recipe_pack`. -/
def recipesLoop (recipes : List JVal) (idx : Nat) (seen : List String) (issues : List String) :
    List String :=
  match recipes with
  | [] => issues
  | recipe :: rest =>
    let recipe_path := "$recipes.recipes[" ++ natStr idx ++ "]"
    match recipe with
    | .obj rfs =>
      match pyGet rfs "id" with
      | .str s =>
        if validIdStr s then
          if seen.contains s then
            recipesLoop rest (idx + 1) (seenAdd seen s)
              (issues ++ [recipe_path ++ ".id: duplicate id \x27" ++ s ++ "\x27"])
          else
            recipesLoop rest (idx + 1) (seenAdd seen s) issues
        else
          recipesLoop rest (idx + 1) seen (issues ++ [recipe_path ++ ".id: invalid id"])
      | _ => recipesLoop rest (idx + 1) seen (issues ++ [recipe_path ++ ".id: invalid id"])
    | _ => recipesLoop rest (idx + 1) seen (issues ++ [recipe_path ++ ": expected object"])

/-- `validate_recipe_pack(recipes_pack)` (total: it performs no fallible
operation). -/
def validate_recipe_pack (recipes_pack : JVal) : List String :=
  match recipes_pack with
  | .obj fs =>
    let issues : List String := []
    let issues :=
      if ¬ pyEqInt (pyGet fs "schemaVersion") 1 then
        issues ++ ["$recipes.schemaVersion: expected 1"]
      else issues
    match pyGet fs "recipes" with
    | .arr recipes => recipesLoop recipes 0 [] issues
    | _ => issues ++ ["$recipes.recipes: expected an array"]
  | _ => ["$recipes: root must be an object"]

end Rpg

namespace Rpg

/-- Python `str(v)` as interpolated into issue messages. Lists and dicts
never reach a message position (testing them for enum membership raises
`TypeError` first), and float rendering approximates Python's decimal repr
by a fraction; neither case is reachable in the theorems below. -/
def pyStr : JVal → String
  | .null => "None"
  | .bool true => "True"
  | .bool false => "False"
  | .int n => if n < 0 then "-" ++ natStr (-n).toNat else natStr n.toNat
  | .float q => (if q.num < 0 then "-" ++ natStr (-q.num).toNat else natStr q.num.toNat)
      ++ "/" ++ natStr q.den
  | .str s => s
  | .arr _ => "<list>"
  | .obj _ => "<dict>"

/-- The `invalid id` / `unknown id` chain used for every cross-referenced id
field: `if not is_valid_content_id(x): <invalid> elif x not in ids:
<unknown>`. -/
def idRefIssues (v : JVal) (ids : List String) (invalidMsg : String)
    (unknownPrefix : String) (issues : List String) : List String :=
  if ¬ is_valid_content_id v then
    issues ++ [invalidMsg]
  else
    match v with
    | .str s => if ¬ ids.contains s then issues ++ [unknownPrefix ++ s ++ "\x27"] else issues
    | _ => issues

/-- `_validate_gather_step(step, path, issues, item_ids)`. -/
def _validate_gather_step (sfs : List (String × JVal)) (path : String) (issues : List String)
    (item_ids : List String) : Except String (List String) := do
  let inAct ← pyInStrSet (pyGet sfs "action") GATHER_ACTIONS
  let issues :=
    if ¬ inAct then issues ++ [path ++ ".action: expected \x27mine\x27 or \x27forest\x27"]
    else issues
  let issues := idRefIssues (pyGet sfs "itemId") item_ids (path ++ ".itemId: invalid item id")
    (path ++ ".itemId: unknown item \x27") issues
  let tierIssue := fun (key : String) (issues : List String) =>
    let value := pyGet sfs key
    if ¬ isNullV value ∧ ¬ _is_int value (some TIER_MIN) (some TIER_MAX) then
      issues ++ [path ++ "." ++ key ++ ": expected integer between 1 and 4"]
    else issues
  let issues := tierIssue "locationTierMin" issues
  let issues := tierIssue "locationTierMax" issues
  let issues := tierIssue "toolTierMin" issues
  let tierMin := pyGet sfs "locationTierMin"
  let tierMax := pyGet sfs "locationTierMax"
  if isIntV tierMin ∧ isIntV tierMax then do
    let lt ← pyLtNum tierMax tierMin
    pure (if lt then issues ++ [path ++ ".locationTierMax: must be >= locationTierMin"] else issues)
  else
    pure issues

/-- `_validate_process_step(step, path, issues, item_ids)`. -/
def _validate_process_step (sfs : List (String × JVal)) (path : String) (issues : List String)
    (item_ids : List String) : List String :=
  let issues := idRefIssues (pyGet sfs "inputItemId") item_ids
    (path ++ ".inputItemId: invalid item id") (path ++ ".inputItemId: unknown item \x27") issues
  let outputItem := pyGet sfs "outputItemId"
  let issues :=
    if ¬ isNullV outputItem then
      idRefIssues outputItem item_ids (path ++ ".outputItemId: invalid item id")
        (path ++ ".outputItemId: unknown item \x27") issues
    else issues
  let successOnly := pyGet sfs "successOnly"
  if ¬ isNullV successOnly ∧ ¬ isBoolV successOnly then
    issues ++ [path ++ ".successOnly: expected boolean"]
  else issues

/-- `_validate_craft_step(step, path, issues, recipe_ids)`. -/
def _validate_craft_step (sfs : List (String × JVal)) (path : String) (issues : List String)
    (recipe_ids : List String) : List String :=
  idRefIssues (pyGet sfs "recipeId") recipe_ids (path ++ ".recipeId: invalid recipe id")
    (path ++ ".recipeId: unknown recipe \x27") issues

/-- `_validate_market_step(step, path, issues, item_ids)`. -/
def _validate_market_step (sfs : List (String × JVal)) (path : String) (issues : List String)
    (item_ids : List String) : List String :=
  idRefIssues (pyGet sfs "itemId") item_ids (path ++ ".itemId: invalid item id")
    (path ++ ".itemId: unknown item \x27") issues

/-- `validate_step(step, path, issues, item_ids, recipe_ids)`: unknown kinds
produce a single issue and short-circuit; known kinds check `qty` and then
dispatch on the kind. -/
def validate_step (step : JVal) (path : String) (issues : List String)
    (item_ids recipe_ids : List String) : Except String (List String) := do
  match step with
  | .obj sfs =>
    let kind := pyGet sfs "kind"
    let inKinds ← pyInStrSet kind QUEST_STEP_KINDS
    if ¬ inKinds then
      return issues ++ [path ++ ".kind: invalid step kind \x27" ++ pyStr kind ++ "\x27"]
    else
      let issues :=
        if ¬ _is_int (pyGet sfs "qty") (some 1) none then
          issues ++ [path ++ ".qty: expected integer >= 1"]
        else issues
      match kind with
      | .str k =>
        if k = "gather_item" then _validate_gather_step sfs path issues item_ids
        else if k = "process_item" then pure (_validate_process_step sfs path issues item_ids)
        else if k = "craft_recipe" then pure (_validate_craft_step sfs path issues recipe_ids)
        else if k = "market_list_item" ∨ k = "market_buy_item" then
          pure (_validate_market_step sfs path issues item_ids)
        else pure issues
      | _ => pure issues
  | _ => pure (issues ++ [path ++ ": step must be an object"])

/-- `_validate_repeat(repeat, path, issues)`. -/
def _validate_repeat (repeatV : JVal) (path : String) (issues : List String) :
    Except String (List String) := do
  match repeatV with
  | .obj rfs =>
    let kind := pyGet rfs "kind"
    let inKinds ← pyInStrSet kind QUEST_REPEAT_KINDS
    if ¬ inKinds then
      return issues ++ [path ++ ".kind: invalid repeat kind \x27" ++ pyStr kind ++ "\x27"]
    else if pyEqStr kind "cooldown" ∧ ¬ _is_int (pyGet rfs "hours") (some 1) none then
      return issues ++ [path ++ ".hours: cooldown repeat requires integer hours >= 1"]
    else
      return issues
  | _ => pure (issues ++ [path ++ ": repeat must be an object"])

/-- The `requiresQuestsCompleted` loop of `_validate_prerequisites`. -/
def requiresLoop (requires : List JVal) (idx : Nat) (path : String)
    (issues : List String) (known_quest_ids : List String) : List String :=
  match requires with
  | [] => issues
  | r :: rest =>
    let req_path := path ++ ".requiresQuestsCompleted[" ++ natStr idx ++ "]"
    let issues :=
      if ¬ is_valid_content_id r then
        issues ++ [req_path ++ ": invalid quest id format"]
      else
        match r with
        | .str s =>
          if ¬ known_quest_ids.contains s then
            issues ++ [req_path ++ ": unknown quest \x27" ++ s ++ "\x27"]
          else issues
        | _ => issues
    requiresLoop rest (idx + 1) path issues known_quest_ids

/-- `_validate_prerequisites(prerequisites, path, issues, known_quest_ids)`. -/
def _validate_prerequisites (prerequisites : JVal) (path : String) (issues : List String)
    (known_quest_ids : List String) : Except String (List String) := do
  match prerequisites with
  | .obj pfs =>
    let profession := pyGet pfs "profession"
    let issues ←
      if ¬ isNullV profession then do
        let inProf ← pyInStrSet profession QUEST_PROFESSIONS
        pure (if ¬ inProf then
          issues ++ [path ++ ".profession: invalid profession \x27" ++ pyStr profession ++ "\x27"]
        else issues)
      else pure issues
    let minLevel := pyGet pfs "minLevel"
    let issues :=
      if ¬ isNullV minLevel ∧ ¬ _is_int minLevel (some 1) none then
        issues ++ [path ++ ".minLevel: expected integer >= 1"]
      else issues
    match pyGetD pfs "requiresQuestsCompleted" (.arr []) with
    | .arr requires => pure (requiresLoop requires 0 path issues known_quest_ids)
    | _ => pure (issues ++ [path ++ ".requiresQuestsCompleted: expected an array"])
  | _ => pure (issues ++ [path ++ ": prerequisites must be an object"])

/-- The `currency` loop of `_validate_rewards` (total). -/
def currencyLoop (currency : List JVal) (idx : Nat) (path : String) (issues : List String) :
    List String :=
  match currency with
  | [] => issues
  | reward :: rest =>
    let reward_path := path ++ ".currency[" ++ natStr idx ++ "]"
    match reward with
    | .obj cfs =>
      let issues :=
        if ¬ is_valid_content_id (pyGet cfs "id") then
          issues ++ [reward_path ++ ".id: invalid currency id"]
        else issues
      let issues :=
        if ¬ _is_int (pyGet cfs "amount") (some 1) none then
          issues ++ [reward_path ++ ".amount: expected integer >= 1"]
        else issues
      currencyLoop rest (idx + 1) path issues
    | _ => currencyLoop rest (idx + 1) path (issues ++ [reward_path ++ ": expected object"])

/-- The `items` loop of `_validate_rewards` (total). -/
def rewardItemsLoop (rewardItems : List JVal) (idx : Nat) (path : String)
    (issues : List String) (item_ids : List String) : List String :=
  match rewardItems with
  | [] => issues
  | reward :: rest =>
    let reward_path := path ++ ".items[" ++ natStr idx ++ "]"
    match reward with
    | .obj cfs =>
      let issues := idRefIssues (pyGet cfs "itemId") item_ids
        (reward_path ++ ".itemId: invalid item id") (reward_path ++ ".itemId: unknown item \x27")
        issues
      let issues :=
        if ¬ _is_int (pyGet cfs "qty") (some 1) none then
          issues ++ [reward_path ++ ".qty: expected integer >= 1"]
        else issues
      rewardItemsLoop rest (idx + 1) path issues item_ids
    | _ => rewardItemsLoop rest (idx + 1) path (issues ++ [reward_path ++ ": expected object"])
      item_ids

/-- `_validate_rewards(rewards, path, issues, item_ids)`: per-component
shape checks first, then the whole-object "at least one non-zero reward"
invariant. -/
def _validate_rewards (rewards : JVal) (path : String) (issues : List String)
    (item_ids : List String) : Except String (List String) := do
  match rewards with
  | .obj rfs =>
    let xp := pyGet rfs "xp"
    let st1 ←
      if ¬ isNullV xp then
        if ¬ _is_int xp (some 0) none then
          pure (issues ++ [path ++ ".xp: expected integer >= 0"], false)
        else do
          let pos ← pyLtNum (.int 0) xp
          pure (issues, pos)
      else pure (issues, false)
    let tokens := pyGet rfs "tokens"
    let st2 ←
      if ¬ isNullV tokens then
        if ¬ _is_int tokens (some 0) none then
          pure (st1.1 ++ [path ++ ".tokens: expected integer >= 0"], st1.2)
        else do
          let pos ← pyLtNum (.int 0) tokens
          pure (st1.1, st1.2 || pos)
      else pure st1
    let currency := pyGetD rfs "currency" (.arr [])
    let st3 :=
      match currency with
      | .arr cs =>
        (currencyLoop cs 0 path st2.1, st2.2 || !cs.isEmpty)
      | .null => (st2.1, st2.2)
      | _ => (st2.1 ++ [path ++ ".currency: expected an array"], st2.2)
    let rewardItems := pyGetD rfs "items" (.arr [])
    let st4 :=
      match rewardItems with
      | .arr is2 =>
        (rewardItemsLoop is2 0 path st3.1 item_ids, st3.2 || !is2.isEmpty)
      | .null => (st3.1, st3.2)
      | _ => (st3.1 ++ [path ++ ".items: expected an array"], st3.2)
    if ¬ st4.2 then
      pure (st4.1 ++ [path ++ ": must contain at least one non-zero reward"])
    else
      pure st4.1
  | _ => pure (issues ++ [path ++ ": rewards must be an object"])

/-- The `steps` loop of `validate_quest`. -/
def stepsLoop (steps : List JVal) (idx : Nat) (path : String) (issues : List String)
    (item_ids recipe_ids : List String) : Except String (List String) := do
  match steps with
  | [] => pure issues
  | step :: rest =>
    let issues ← validate_step step (path ++ ".steps[" ++ natStr idx ++ "]") issues
      item_ids recipe_ids
    stepsLoop rest (idx + 1) path issues item_ids recipe_ids

/-- `validate_quest(quest, path, issues, quest_ids, item_ids, recipe_ids)`. -/
def validate_quest (quest : JVal) (path : String) (issues : List String)
    (quest_ids item_ids recipe_ids : List String) : Except String (List String) := do
  match quest with
  | .obj qfs =>
    let titleBad ← strFieldMissing qfs "title"
    let issues := if titleBad then issues ++ [path ++ ".title: required non-empty string"] else issues
    let descBad ← strFieldMissing qfs "description"
    let issues :=
      if descBad then issues ++ [path ++ ".description: required non-empty string"] else issues
    let inDiff ← pyInStrSet (pyGetD qfs "difficulty" (.str "easy")) QUEST_DIFFICULTIES
    let issues := if ¬ inDiff then issues ++ [path ++ ".difficulty: invalid difficulty"] else issues
    let enabled := pyGet qfs "enabled"
    let issues :=
      if ¬ isNullV enabled ∧ ¬ isBoolV enabled then
        issues ++ [path ++ ".enabled: expected boolean"]
      else issues
    let repeatV := pyGetD qfs "repeat" (.obj [("kind", .str "none")])
    let issues ← _validate_repeat repeatV (path ++ ".repeat") issues
    let prerequisites := pyGet qfs "prerequisites"
    let issues ←
      if ¬ isNullV prerequisites then
        _validate_prerequisites prerequisites (path ++ ".prerequisites") issues quest_ids
      else pure issues
    let issues ←
      match pyGet qfs "steps" with
      | .arr steps =>
        if steps.isEmpty then
          pure (issues ++ [path ++ ".steps: expected non-empty array"])
        else
          stepsLoop steps 0 path issues item_ids recipe_ids
      | _ => pure (issues ++ [path ++ ".steps: expected non-empty array"])
    _validate_rewards (pyGet qfs "rewards") (path ++ ".rewards") issues item_ids
  | _ => pure (issues ++ [path ++ ": expected object"])

/-- Pass 1 of `validate_quest_pack`: collect ids, flagging invalid-format
and duplicate ids. -/
def questIdsPass (quests : List JVal) (idx : Nat) (quest_ids : List String)
    (issues : List String) : List String × List String :=
  match quests with
  | [] => (quest_ids, issues)
  | quest :: rest =>
    let quest_path := "$quests.quests[" ++ natStr idx ++ "]"
    match quest with
    | .obj qfs =>
      match pyGet qfs "id" with
      | .str s =>
        if validIdStr s then
          if quest_ids.contains s then
            questIdsPass rest (idx + 1) quest_ids
              (issues ++ [quest_path ++ ".id: duplicate id \x27" ++ s ++ "\x27"])
          else
            questIdsPass rest (idx + 1) (quest_ids ++ [s]) issues
        else
          questIdsPass rest (idx + 1) quest_ids
            (issues ++ [quest_path ++ ".id: invalid id, expected ^[a-z0-9_]+$"])
      | _ =>
        questIdsPass rest (idx + 1) quest_ids
          (issues ++ [quest_path ++ ".id: invalid id, expected ^[a-z0-9_]+$"])
    | _ =>
      questIdsPass rest (idx + 1) quest_ids (issues ++ [quest_path ++ ": expected object"])

/-- Pass 2 of `validate_quest_pack`: validate every dict quest's contents
with the complete id set. -/
def questsPass2 (quests : List JVal) (idx : Nat) (issues : List String)
    (quest_ids item_ids recipe_ids : List String) : Except String (List String) := do
  match quests with
  | [] => pure issues
  | quest :: rest =>
    match quest with
    | .obj _ =>
      let issues ← validate_quest quest ("$quests.quests[" ++ natStr idx ++ "]") issues
        quest_ids item_ids recipe_ids
      questsPass2 rest (idx + 1) issues quest_ids item_ids recipe_ids
    | _ => questsPass2 rest (idx + 1) issues quest_ids item_ids recipe_ids

/-- `validate_quest_pack(quests_pack, item_ids, recipe_ids)`. -/
def validate_quest_pack (quests_pack : JVal) (item_ids recipe_ids : List String) :
    Except String (List String) := do
  match quests_pack with
  | .obj fs =>
    let issues : List String := []
    let issues :=
      if ¬ pyEqInt (pyGet fs "schemaVersion") 1 then
        issues ++ ["$quests.schemaVersion: expected 1"]
      else issues
    match pyGet fs "quests" with
    | .arr quests =>
      let p1 := questIdsPass quests 0 [] issues
      questsPass2 quests 0 p1.2 p1.1 item_ids recipe_ids
    | _ => pure (issues ++ ["$quests.quests: expected an array"])
  | _ => pure ["$quests: root must be an object"]

/-- The id-set collection inside `validate_packs` (and the repository's
`_rebuild_id_caches`): every dict entry with a valid id. -/
def collectIds : List JVal → List String → List String
  | [], acc => acc
  | e :: rest, acc =>
    match e with
    | .obj fs =>
      match pyGet fs "id" with
      | .str s => if validIdStr s then collectIds rest (seenAdd acc s) else collectIds rest acc
      | _ => collectIds rest acc
    | _ => collectIds rest acc

/-- `validate_packs(quests_pack, items_pack, recipes_pack)`: items and
recipes first, then the id sets, then quests with cross-references. -/
def validate_packs (quests_pack items_pack recipes_pack : JVal) :
    Except String (List String) := do
  let item_issues ← validate_item_pack items_pack
  let recipe_issues := validate_recipe_pack recipes_pack
  let issues := ([] : List String) ++ item_issues ++ recipe_issues
  let item_ids :=
    match items_pack with
    | .obj fs =>
      match pyGet fs "items" with
      | .arr items => collectIds items []
      | _ => []
    | _ => []
  let recipe_ids :=
    match recipes_pack with
    | .obj fs =>
      match pyGet fs "recipes" with
      | .arr recipes => collectIds recipes []
      | _ => []
    | _ => []
  let quest_issues ← validate_quest_pack quests_pack item_ids recipe_ids
  pure (issues ++ quest_issues)

end Rpg

namespace Rpg

/-! ## Store commands (`commands/store.py`) -/

/-- The per-entry loop of `_validate_store_pack`. Unlike `_is_int` in
`schemas.py`, the price/stock/limit checks here use plain
`isinstance(x, int)`, which booleans satisfy in Python. -/
def storeItemsLoop (items : List JVal) (idx : Nat) (seen : List String)
    (issues : List String) (item_ids : List String) : Except String (List String) := do
  match items with
  | [] => pure issues
  | item :: rest =>
    let item_path := "$store.items[" ++ natStr idx ++ "]"
    match item with
    | .obj ifs =>
      let itemId := pyGet ifs "itemId"
      let stp :=
        if ¬ is_valid_content_id itemId then
          (issues ++ [item_path ++ ".itemId: invalid item id"], seen)
        else
          match itemId with
          | .str s =>
            if seen.contains s then
              (issues ++ [item_path ++ ".itemId: duplicate item \x27" ++ s ++ "\x27"], seen)
            else if ¬ item_ids.contains s then
              (issues ++ [item_path ++ ".itemId: unknown item \x27" ++ s ++ "\x27"], seen)
            else
              (issues, seenAdd seen s)
          | _ => (issues, seen)
      let issues := stp.1
      let nameBad ← strFieldMissing ifs "name"
      let issues :=
        if nameBad then issues ++ [item_path ++ ".name: required non-empty string"] else issues
      let buyPrice := pyGet ifs "buyPrice"
      let issues ←
        if ¬ isIntV buyPrice then
          pure (issues ++ [item_path ++ ".buyPrice: expected integer >= 1"])
        else do
          let lt ← pyLtNum buyPrice (.int 1)
          pure (if lt then issues ++ [item_path ++ ".buyPrice: expected integer >= 1"] else issues)
      let sellPrice := pyGet ifs "sellPrice"
      let issues ←
        if ¬ isIntV sellPrice then
          pure (issues ++ [item_path ++ ".sellPrice: expected integer >= 1"])
        else do
          let lt ← pyLtNum sellPrice (.int 1)
          pure (if lt then issues ++ [item_path ++ ".sellPrice: expected integer >= 1"] else issues)
      let stock := pyGetD ifs "stock" (.int (-1))
      let issues ←
        if ¬ isIntV stock then
          pure (issues ++ [item_path ++ ".stock: expected integer >= -1"])
        else do
          let lt ← pyLtNum stock (.int (-1))
          pure (if lt then issues ++ [item_path ++ ".stock: expected integer >= -1"] else issues)
      let available := pyGetD ifs "available" (.bool true)
      let issues :=
        if ¬ isBoolV available then
          issues ++ [item_path ++ ".available: expected boolean"]
        else issues
      let category := pyGet ifs "category"
      let issues ←
        if ¬ isNullV category then do
          let inCat ← pyInStrSet category MARKET_CATEGORIES
          pure (if ¬ inCat then
            issues ++ [item_path ++ ".category: expected one of " ++ marketCategoriesSortedRepr]
          else issues)
        else pure issues
      let purchaseLimit := pyGetD ifs "purchaseLimit" (.int 0)
      let issues ←
        if ¬ isIntV purchaseLimit then
          pure (issues ++ [item_path ++ ".purchaseLimit: expected integer >= 0"])
        else do
          let lt ← pyLtNum purchaseLimit (.int 0)
          pure (if lt then
            issues ++ [item_path ++ ".purchaseLimit: expected integer >= 0"]
          else issues)
      storeItemsLoop rest (idx + 1) stp.2 issues item_ids
    | _ =>
      storeItemsLoop rest (idx + 1) seen
        (issues ++ [item_path ++ ": expected object"]) item_ids

/-- `_validate_store_pack(store_pack, item_ids)`. -/
def _validate_store_pack (store_pack : JVal) (item_ids : List String) :
    Except String (List String) := do
  match store_pack with
  | .obj fs =>
    let issues : List String := []
    let issues :=
      if ¬ pyEqInt (pyGet fs "schemaVersion") 1 then
        issues ++ ["$store.schemaVersion: expected 1"]
      else issues
    match pyGet fs "items" with
    | .arr items => storeItemsLoop items 0 [] issues item_ids
    | _ => pure (issues ++ ["$store.items: expected an array"])
  | _ => pure ["$store: root must be an object"]

/-- The argument record of `store add` (argparse values as Python objects;
absent optional arguments are `None`). -/
structure StoreAddArgs where
  item_id : String
  name : JVal
  buy_price : JVal
  sell_price : JVal
  stock : JVal
  unavailable : Bool
  description : JVal
  category : JVal
  purchase_limit : JVal
  required_role : JVal

/-- The typed failure conditions a store command can signal. -/
inductive CmdErr where
  | notFound (entity id : String)
  | duplicateId (entity id : String)
  | validationFailed (issues : List String)
  | pyError (msg : String)
  deriving Repr, DecidableEq

/-- Outcome of `cmd_store_add`: the post-state of the in-memory store pack,
whether `_save_store_pack` was reached, and the error raised, if any. -/
structure StoreAddResult where
  store_pack : JVal
  saved : Bool
  err : Option CmdErr

/-- `ContentPacks.find_item`: index of the first dict entry whose `id`
equals the query (`NotFoundError` modelled as `none`). -/
def find_item (items : List JVal) (item_id : String) : Option (Nat × List (String × JVal)) :=
  match items with
  | [] => none
  | e :: rest =>
    match e with
    | .obj fs =>
      if pyEqStr (pyGet fs "id") item_id then some (0, fs)
      else (find_item rest item_id).map (fun p => (p.1 + 1, p.2))
    | _ => (find_item rest item_id).map (fun p => (p.1 + 1, p.2))

/-- Python `int(v * 0.85)` for the sell-price default. Exact rational
arithmetic with truncation toward zero stands in for binary-float rounding
(which can differ by one unit in corner cases; the theorems below never
evaluate this default). Non-numeric `v` raises `TypeError`. -/
def sellPriceDefault (v : JVal) : Except String Int :=
  if isNumV v then
    let q : Rat := toRatNum v * (85 / 100 : Rat)
    .ok (q.num / (q.den : Int))
  else
    .error "TypeError: unsupported operand"

/-- `cmd_store_add(paths, args)` after loading: takes the item-id cache of
the loaded packs, the items list (for `find_item` defaults) and the loaded
store pack. Mirrors the source's order: `setdefault("items", [])`, the
`NotFound` check, the duplicate scan, defaults, build, append, validate,
save. -/
def cmd_store_add (item_ids : List String) (pack_items : List JVal) (store_pack : JVal)
    (args : StoreAddArgs) : StoreAddResult :=
  match store_pack with
  | .obj fs =>
    let fs1 := if hasKey fs "items" then fs else dset fs "items" (.arr [])
    let itemsVal := if hasKey fs "items" then pyGet fs "items" else .arr []
    let pack1 := JVal.obj fs1
    if ¬ item_ids.contains args.item_id then
      ⟨pack1, false, some (.notFound "Item" args.item_id)⟩
    else
      match itemsVal with
      | .arr items =>
        if items.any (fun it =>
            match it with
            | .obj ifs => pyEqStr (pyGet ifs "itemId") args.item_id
            | _ => false) then
          ⟨pack1, false, some (.duplicateId "Store item" args.item_id)⟩
        else
          match find_item pack_items args.item_id with
          | none => ⟨pack1, false, some (.notFound "Item" args.item_id)⟩
          | some (_, idefFs) =>
            let default_name := pyGetD idefFs "name" (.str args.item_id)
            let default_value := pyGetD idefFs "value" (.int 10)
            let nameV := if pyTruthy args.name then args.name else default_name
            let buyV := if ¬ isNullV args.buy_price then args.buy_price else default_value
            let sellRes :=
              if ¬ isNullV args.sell_price then .ok args.sell_price
              else (sellPriceDefault default_value).map JVal.int
            match sellRes with
            | .error e => ⟨pack1, false, some (.pyError e)⟩
            | .ok sellV =>
              let store_item : List (String × JVal) :=
                [("itemId", .str args.item_id), ("name", nameV), ("buyPrice", buyV),
                 ("sellPrice", sellV), ("stock", args.stock),
                 ("available", .bool (!args.unavailable))]
              let store_item :=
                if pyTruthy args.description then dset store_item "description" args.description
                else store_item
              let store_item :=
                if pyTruthy args.category then dset store_item "category" args.category
                else store_item
              let plRes :=
                if pyTruthy args.purchase_limit then
                  (pyLtNum (.int 0) args.purchase_limit).map
                    (fun gt => if gt then dset store_item "purchaseLimit" args.purchase_limit
                      else store_item)
                else .ok store_item
              match plRes with
              | .error e => ⟨pack1, false, some (.pyError e)⟩
              | .ok store_item =>
                let store_item :=
                  if pyTruthy args.required_role then
                    dset store_item "requiredRole" args.required_role
                  else store_item
                let pack2 := JVal.obj (dset fs1 "items" (.arr (items ++ [.obj store_item])))
                match _validate_store_pack pack2 item_ids with
                | .error e => ⟨pack2, false, some (.pyError e)⟩
                | .ok issues =>
                  if issues.isEmpty then ⟨pack2, true, none⟩
                  else ⟨pack2, false, some (.validationFailed issues)⟩
      | _ => ⟨pack1, false, some (.pyError "TypeError: not iterable")⟩
  | _ => ⟨store_pack, false, some (.pyError "AttributeError: setdefault")⟩

/-- The store-pack `items` list as the command reads it: the value
`setdefault("items", [])` yields. -/
def storeItemsView (p : JVal) : JVal :=
  match p with
  | .obj fs => if hasKey fs "items" then pyGet fs "items" else .arr []
  | _ => .null

end Rpg

namespace Rpg

/-! ## Store and reward claim theorems -/

/-- A store pack whose entry has boolean `buyPrice`, `sellPrice`, `stock`
and `purchaseLimit`. -/
def storeBoolDemo : JVal :=
  .obj [("schemaVersion", .int 1),
        ("items", .arr [.obj [("itemId", .str "itm"), ("name", .str "Thing"),
          ("buyPrice", .bool true), ("sellPrice", .bool true), ("stock", .bool true),
          ("purchaseLimit", .bool true)]])]

/-- **C1 (counterexample)** — the store pack validator accepts a boolean
where an integer is required: with `buyPrice`, `sellPrice`, `stock` and
`purchaseLimit` all set to `True`, `_validate_store_pack` reports **no**
issue at all (its checks use plain `isinstance(x, int)`, which Python
booleans satisfy, with `True` counting as `1`), contradicting the claim
that a boolean always produces a validation issue. -/
theorem claim_C1_counterexample :
    _validate_store_pack storeBoolDemo ["itm"] = .ok [] := rfl

/-- **C1 (amended)** — every integer check routed through `_is_int`
(`schemas.py`: items, quests, steps, rewards, repeat, prerequisites)
rejects booleans outright, regardless of the requested bounds, and e.g. a
boolean `maxStack` yields a validation issue; the store pack validator's
`buyPrice`/`sellPrice`/`stock`/`purchaseLimit` checks, however, use plain
`isinstance(x, int)` and accept booleans (`True` as `1`, `False` as `0`). -/
theorem claim_C1_amended :
    (∀ (b : Bool) (mn mx : Option Int), _is_int (.bool b) mn mx = false) ∧
    validate_item (.obj [("id", .str "x"), ("name", .str "N"), ("description", .str "D"),
        ("maxStack", .bool true)]) "$i" [] = .ok ["$i.maxStack: expected integer >= 1"] ∧
    _validate_store_pack storeBoolDemo ["itm"] = .ok [] := by
  refine ⟨fun b mn mx => rfl, rfl, rfl⟩

/-- The all-zero rewards object of the spec's scenario. -/
def zeroRewards : JVal :=
  .obj [("xp", .int 0), ("tokens", .int 0), ("currency", .arr []), ("items", .arr [])]

/-- A quest that is valid except for its all-zero rewards. -/
def zeroRewardQuest : JVal :=
  .obj [("id", .str "q1"), ("title", .str "T"), ("description", .str "D"),
        ("steps", .arr [.obj [("kind", .str "fight_win"), ("qty", .int 1)]]),
        ("rewards", zeroRewards)]

/-- **C8** — an all-zero rewards object `{xp: 0, tokens: 0, currency: [],
items: []}` produces exactly the "must contain at least one non-zero
reward" issue, appended after all per-component checks, for every path
prefix and accumulator; inside quest validation it is tagged
`$quests.quests[i].rewards` (shown for the pack with the quest at index 0);
and when a component check itself fails (`xp: "bad"`), the whole-object
issue still comes last, after the component issue. -/
theorem claim_C8_all_zero_rewards :
    (∀ (path : String) (issues ids : List String),
      _validate_rewards zeroRewards path issues ids =
        .ok (issues ++ [path ++ ": must contain at least one non-zero reward"])) ∧
    validate_quest_pack (.obj [("schemaVersion", .int 1), ("quests", .arr [zeroRewardQuest])]) [] [] =
      .ok ["$quests.quests[0].rewards: must contain at least one non-zero reward"] ∧
    (∀ (path : String) (ids : List String),
      _validate_rewards (.obj [("xp", .str "bad")]) path [] ids =
        .ok [path ++ ".xp: expected integer >= 0",
             path ++ ": must contain at least one non-zero reward"]) := by
  refine ⟨fun path issues ids => rfl, rfl, fun path ids => rfl⟩

/-- **C9** — `store add` with an item id absent from the loaded items pack
fails with `NotFound("Item", id)`, nothing is saved, and the store items
list (as `setdefault("items", [])` reads it) is unchanged. -/
theorem claim_C9_store_add_not_found (fs : List (String × JVal))
    (item_ids : List String) (pack_items : List JVal) (args : StoreAddArgs)
    (h : item_ids.contains args.item_id = false) :
    (cmd_store_add item_ids pack_items (.obj fs) args).err =
      some (.notFound "Item" args.item_id) ∧
    (cmd_store_add item_ids pack_items (.obj fs) args).saved = false ∧
    storeItemsView (cmd_store_add item_ids pack_items (.obj fs) args).store_pack =
      storeItemsView (.obj fs) := by
  have hc : ¬ item_ids.contains args.item_id = true := by rw [h]; simp
  simp only [cmd_store_add]
  rw [if_pos hc]
  refine ⟨rfl, rfl, ?_⟩
  by_cases hk : hasKey fs "items" = true
  · simp [storeItemsView, hk]
  · simp only [hasKey, Bool.not_eq_true] at hk
    simp [storeItemsView, hasKey, pyGet, hk]

end Rpg

namespace Rpg

/-! ## Exception analysis of the validators

`OkOrUnhash r` says the computation `r` either returns normally or raises
the unhashable-`TypeError` — never any other exception (no `KeyError` from
the guarded subscripts, no `AttributeError` from the guarded `.strip()`
calls, no comparison `TypeError` from the guarded numeric comparisons). -/

def OkOrUnhash {α : Type} (r : Except String α) : Prop :=
  ∀ e, r = .error e → e = unhashableTypeErrMsg

theorem okOrUnhash_pure {α : Type} (a : α) : OkOrUnhash (pure (f := Except String) a) := by
  intro e h
  simp [pure, Except.pure] at h

theorem okOrUnhash_ok {α : Type} (a : α) : OkOrUnhash (Except.ok a) := by
  intro e h
  simp at h

theorem okOrUnhash_of_ex {α : Type} {m : Except String α} (h : ∃ a, m = .ok a) :
    OkOrUnhash m := by
  obtain ⟨a, ha⟩ := h
  intro e he
  rw [ha] at he
  simp at he

theorem okOrUnhash_bind {α β : Type} {m : Except String α} {k : α → Except String β}
    (hm : OkOrUnhash m) (hk : ∀ a, OkOrUnhash (k a)) : OkOrUnhash (m >>= k) := by
  intro e he
  cases m with
  | error e' =>
    have : (Except.error e' >>= k : Except String β) = .error e' := rfl
    rw [this] at he
    injection he with h'
    exact h' ▸ hm e' rfl
  | ok a =>
    have : (Except.ok a >>= k : Except String β) = k a := rfl
    rw [this] at he
    exact hk a e he

theorem pyInStrSet_error {v : JVal} {s : List String} {e : String}
    (h : pyInStrSet v s = .error e) : e = unhashableTypeErrMsg := by
  cases v <;> simp [pyInStrSet] at h <;> exact h.symm

theorem okOrUnhash_pyInStrSet (v : JVal) (s : List String) : OkOrUnhash (pyInStrSet v s) :=
  fun _ he => pyInStrSet_error he

@[simp]
theorem except_bind_ok {α β : Type} (a : α) (k : α → Except String β) :
    (Except.ok a >>= k) = k a := rfl

@[simp]
theorem except_bind_error {α β : Type} (e : String) (k : α → Except String β) :
    ((Except.error e : Except String α) >>= k) = .error e := rfl

@[simp]
theorem except_pure_eq_ok {α : Type} (a : α) : (pure a : Except String α) = .ok a := rfl

@[simp]
theorem except_map_ok {α β : Type} (f : α → β) (a : α) :
    (f <$> (Except.ok a : Except String α)) = .ok (f a) := rfl

@[simp]
theorem except_map_error {α β : Type} (f : α → β) (e : String) :
    (f <$> (Except.error e : Except String α)) = .error e := rfl

theorem strFieldMissing_ok (fs : List (String × JVal)) (k : String) :
    ∃ b, strFieldMissing fs k = .ok b := by
  rcases hdg : dget fs k with _ | v
  · exact ⟨true, by simp [strFieldMissing, pyGet, hdg, isStrV]⟩
  · have hv : pyGet fs k = v := by simp [pyGet, hdg]
    cases v
    case str s =>
      exact ⟨isBlankStr s, by simp [strFieldMissing, hv, isStrV, pySubscript, hdg, pyStripTruthy]⟩
    all_goals exact ⟨true, by simp [strFieldMissing, hv, isStrV]⟩

theorem isNumV_of_isIntV {v : JVal} (h : isIntV v = true) : isNumV v = true := by
  cases v <;> simp [isIntV, isNumV] at h ⊢

theorem pyLtNum_ok {a b : JVal} (ha : isNumV a = true) (hb : isNumV b = true) :
    ∃ x, pyLtNum a b = .ok x := by
  simp [pyLtNum, ha, hb]

end Rpg

namespace Rpg

/-! ## Message-shape lemmas

`lastOk s` — the issue string `s` does not end with an apostrophe. Every
message the item validators emit is `somePath ++ fixedTail` with a fixed
tail whose last character is not an apostrophe, whereas every
"duplicate id" message ends with a quoted id; counting duplicate-id issues
therefore never counts a message of another kind. -/

def lastOk (s : String) : Prop := s.data.getLast? ≠ some '\x27'

theorem lastOk_of_append (p c : String) (h1 : c.data ≠ []) (h2 : c.data.getLast? ≠ some '\x27') :
    lastOk (p ++ c) := by
  unfold lastOk
  rw [String.data_append, List.getLast?_append_of_ne_nil _ h1]
  exact h2

theorem ite_append_push (c : Prop) [Decidable c] (l : List String) (m : String) :
    (if c then l ++ [m] else l) = l ++ (if c then [m] else []) := by
  split <;> simp

/-- All issue strings in a list avoid a trailing apostrophe. -/
def AllLastOk (l : List String) : Prop := ∀ s ∈ l, lastOk s

theorem allLastOk_nil : AllLastOk [] := by
  intro s hs
  simp at hs

theorem allLastOk_singleton {m : String} (h : lastOk m) : AllLastOk [m] := by
  intro s hs
  simp only [List.mem_singleton] at hs
  exact hs ▸ h

theorem allLastOk_append {a b : List String} (ha : AllLastOk a) (hb : AllLastOk b) :
    AllLastOk (a ++ b) := by
  intro s hs
  rcases List.mem_append.1 hs with h | h
  · exact ha s h
  · exact hb s h

theorem allLastOk_ite {a b : List String} (c : Prop) [Decidable c]
    (ha : AllLastOk a) (hb : AllLastOk b) : AllLastOk (if c then a else b) := by
  split <;> assumption

theorem ite_append_factor (c : Prop) [Decidable c] (l a b : List String) :
    (if c then l ++ a else l ++ b) = l ++ (if c then a else b) := by
  split <;> rfl

theorem validate_item_market_spec (market : JVal) (path : String) (issues : List String) :
    (∀ e, validate_item_market market path issues = .error e → e = unhashableTypeErrMsg) ∧
    (∀ out, validate_item_market market path issues = .ok out →
      ∃ extra, out = issues ++ extra ∧ AllLastOk extra) := by
  by_cases hnull : isNullV market = true
  · refine ⟨fun e he => ?_, fun out hout => ?_⟩
    · simp [validate_item_market, hnull] at he
    · simp [validate_item_market, hnull] at hout
      exact ⟨[], by simp [hout], allLastOk_nil⟩
  · rcases market with _ | b | n | q | st | xs | ms
    rotate_right 1
    · rcases hcat : pyInStrSet (pyGet ms "category") MARKET_CATEGORIES with e' | bcat
      · refine ⟨fun e he => ?_, fun out hout => ?_⟩
        · simp only [validate_item_market, hnull, if_false, hcat, except_bind_error] at he
          have he' : e' = e := by simpa using he
          exact he' ▸ pyInStrSet_error hcat
        · simp only [validate_item_market, hnull, if_false, hcat, except_bind_error] at hout
          simp at hout
      · by_cases hmm : isIntV (pyGet ms "minPrice") = true ∧ isIntV (pyGet ms "maxPrice") = true
        · obtain ⟨blt, hlt⟩ := pyLtNum_ok (isNumV_of_isIntV hmm.2) (isNumV_of_isIntV hmm.1)
          simp only [validate_item_market, hnull, if_false, hcat, except_bind_ok, hmm,
            and_self, if_true, hlt]
          refine ⟨fun e he => by simp at he, fun out hout => ?_⟩
          simp only [Bool.false_eq_true, if_false, except_pure_eq_ok, Except.ok.injEq] at hout
          subst hout
          simp only [ite_append_push, ite_append_factor, List.append_assoc]
          refine ⟨_, rfl, ?_⟩
          repeat
            first
            | apply allLastOk_append
            | apply allLastOk_ite
            | exact allLastOk_nil
            | exact allLastOk_singleton (lastOk_of_append _ _ (by decide) (by decide))
        · simp only [validate_item_market, hnull, if_false, hcat, except_bind_ok, hmm]
          refine ⟨fun e he => by simp at he, fun out hout => ?_⟩
          simp only [Bool.false_eq_true, if_false, except_pure_eq_ok, Except.ok.injEq] at hout
          subst hout
          simp only [ite_append_push, ite_append_factor, List.append_assoc]
          refine ⟨_, rfl, ?_⟩
          repeat
            first
            | apply allLastOk_append
            | apply allLastOk_ite
            | exact allLastOk_nil
            | exact allLastOk_singleton (lastOk_of_append _ _ (by decide) (by decide))
    all_goals first
      | exact absurd rfl hnull
      | {
          refine ⟨fun e he => by simp [validate_item_market, isNullV] at he, fun out hout => ?_⟩
          simp [validate_item_market, isNullV] at hout
          refine ⟨[path ++ ".market: expected object"], ?_, ?_⟩
          · first
            | exact hout
            | exact hout.symm
          · exact allLastOk_singleton (lastOk_of_append _ _ (by decide) (by decide))
        }

end Rpg

namespace Rpg

theorem validate_item_spec (item : JVal) (path : String) (issues : List String) :
    (∀ e, validate_item item path issues = .error e → e = unhashableTypeErrMsg) ∧
    (∀ out, validate_item item path issues = .ok out →
      ∃ extra, out = issues ++ extra ∧ AllLastOk extra) := by
  cases item
  case obj fs =>
    obtain ⟨b1, h1⟩ := strFieldMissing_ok fs "name"
    obtain ⟨b2, h2⟩ := strFieldMissing_ok fs "description"
    have hfin : ∀ (I : List String),
        (∃ e5, I = issues ++ e5 ∧ AllLastOk e5) →
        (∀ e, validate_item_market (pyGet fs "market") path I = .error e →
          e = unhashableTypeErrMsg) ∧
        (∀ out, validate_item_market (pyGet fs "market") path I = .ok out →
          ∃ extra, out = issues ++ extra ∧ AllLastOk extra) := by
      intro I hI
      obtain ⟨e5, hI5, hA5⟩ := hI
      refine ⟨fun e he => (validate_item_market_spec _ _ _).1 e he, fun out hout => ?_⟩
      obtain ⟨extra', hout', hA'⟩ := (validate_item_market_spec _ _ _).2 out hout
      refine ⟨e5 ++ extra', ?_, allLastOk_append hA5 hA'⟩
      rw [hout', hI5, List.append_assoc]
    by_cases hval : isNullV (pyGet fs "value") = true
    · simp only [validate_item, h1, h2, except_bind_ok, hval, if_true]
      apply hfin
      simp only [ite_append_push, ite_append_factor, List.append_assoc]
      refine ⟨_, rfl, ?_⟩
      repeat
        first
        | apply allLastOk_append
        | apply allLastOk_ite
        | exact allLastOk_nil
        | exact allLastOk_singleton (lastOk_of_append _ _ (by decide) (by decide))
    · by_cases hnum : isNumV (pyGet fs "value") = true
      · obtain ⟨bv, hv⟩ := pyLtNum_ok hnum (show isNumV (.int 0) = true from rfl)
        simp only [validate_item, h1, h2, except_bind_ok, hval, hnum, if_false, not_true,
          not_false_eq_true, if_true, hv]
        apply hfin
        simp only [ite_append_push, ite_append_factor, List.append_assoc]
        refine ⟨_, rfl, ?_⟩
        repeat
          first
          | apply allLastOk_append
          | apply allLastOk_ite
          | exact allLastOk_nil
          | exact allLastOk_singleton (lastOk_of_append _ _ (by decide) (by decide))
      · simp only [validate_item, h1, h2, except_bind_ok, hval, hnum, if_false, not_true,
          not_false_eq_true, if_true]
        apply hfin
        simp only [ite_append_push, ite_append_factor, List.append_assoc]
        refine ⟨_, rfl, ?_⟩
        repeat
          first
          | apply allLastOk_append
          | apply allLastOk_ite
          | exact allLastOk_nil
          | exact allLastOk_singleton (lastOk_of_append _ _ (by decide) (by decide))
  all_goals {
    refine ⟨fun e he => by simp [validate_item] at he, fun out hout => ?_⟩
    simp only [validate_item, except_pure_eq_ok, Except.ok.injEq] at hout
    refine ⟨[path ++ ": expected object"], hout.symm, ?_⟩
    exact allLastOk_singleton (lastOk_of_append _ _ (by decide) (by decide))
  }

end Rpg

namespace Rpg

/-! ## Duplicate-id issue counting (C6)

A "duplicate id" issue for the id `x` is recognized by its characteristic
suffix `": duplicate id 'x'"`. The lemmas below show this recognizer is
exact: it accepts every duplicate-id message for `x` and, because valid ids
contain neither colons nor apostrophes and every path prefix is colon-free,
rejects duplicate-id messages for any other id as well as every other
message the validators emit (those never end with an apostrophe). -/

/-- The characteristic suffix of a duplicate-id message for id `x`. -/
def dupTail (x : String) : List Char :=
  (": duplicate id \x27").data ++ x.data ++ ['\x27']

/-- Recognizer for duplicate-id issues for id `x`. -/
def pdup (x : String) (s : String) : Bool :=
  decide (dupTail x <:+ s.data)

theorem dupTail_ne_nil (x : String) : dupTail x ≠ [] := by
  simp [dupTail]

theorem dupTail_getLast (x : String) : (dupTail x).getLast? = some '\x27' := by
  unfold dupTail
  rw [List.append_assoc, List.getLast?_append_of_ne_nil _ (by simp)]
  rw [List.getLast?_append_of_ne_nil _ (by simp)]
  rfl

theorem pdup_eq_false_of_lastOk {x s : String} (h : lastOk s) : pdup x s = false := by
  unfold pdup
  simp only [decide_eq_false_iff_not]
  intro hsuf
  obtain ⟨pre, hpre⟩ := hsuf
  apply h
  rw [← hpre, List.getLast?_append_of_ne_nil _ (dupTail_ne_nil x), dupTail_getLast]

theorem countP_pdup_eq_zero_of_allLastOk {x : String} {l : List String}
    (h : AllLastOk l) : l.countP (pdup x) = 0 := by
  rw [List.countP_eq_zero]
  intro s hs
  simp [pdup_eq_false_of_lastOk (h s hs)]

theorem validIdStr_chars {x : String} (h : validIdStr x = true) :
    ∀ c ∈ x.data, validIdChar c = true := by
  unfold validIdStr at h
  simp only [Bool.and_eq_true, List.all_eq_true] at h
  exact h.2

theorem validIdStr_no_colon {x : String} (h : validIdStr x = true) : ':' ∉ x.data := by
  intro hm
  have := validIdStr_chars h ':' hm
  simp [validIdChar] at this

theorem validIdStr_no_quote {x : String} (h : validIdStr x = true) : '\x27' ∉ x.data := by
  intro hm
  have := validIdStr_chars h '\x27' hm
  simp [validIdChar] at this

theorem cons_eq_cons_of_not_mem {α : Type} (c : α) :
    ∀ (a' a b b' : List α), c ∉ a' → c ∉ b' → a ++ c :: b = a' ++ c :: b' →
      a = a' ∧ b = b' := by
  intro a'
  induction a' with
  | nil =>
    intro a b b' _ hb' h
    cases a with
    | nil => simpa using h
    | cons z t =>
      simp only [List.cons_append, List.nil_append, List.cons.injEq] at h
      obtain ⟨rfl, h2⟩ := h
      exact absurd (h2 ▸ List.mem_append_right t (List.mem_cons_self _ _)) hb'
  | cons y u ih =>
    intro a b b' ha' hb' h
    cases a with
    | nil =>
      simp only [List.nil_append, List.cons_append, List.cons.injEq] at h
      exact absurd (h.1 ▸ List.mem_cons_self y u) ha'
    | cons z t =>
      simp only [List.cons_append, List.cons.injEq] at h
      obtain ⟨rfl, h2⟩ := h
      have hua : c ∉ u := fun hm => ha' (List.mem_cons_of_mem _ hm)
      obtain ⟨rfl, rfl⟩ := ih t b b' hua hb' h2
      exact ⟨rfl, rfl⟩

theorem dupTail_suffix_force {p : List Char} {x y : String}
    (hx : validIdStr x = true) (hy : validIdStr y = true) (hp : ':' ∉ p) :
    dupTail x <:+ p ++ dupTail y → x = y := by
  intro hsuf
  obtain ⟨pre, hpre⟩ := hsuf
  have hdt : ∀ z : String,
      dupTail z = ':' :: ((" duplicate id \x27").data ++ (z.data ++ ['\x27'])) := by
    intro z
    simp [dupTail]
  rw [hdt x, hdt y] at hpre
  have hyc : ':' ∉ y.data := validIdStr_no_colon hy
  have hrest : ':' ∉ (" duplicate id \x27").data ++ (y.data ++ ['\x27']) := by
    intro hm
    rcases List.mem_append.1 hm with h | h
    · revert h
      decide
    · rcases List.mem_append.1 h with h' | h'
      · exact hyc h'
      · revert h'
        decide
  obtain ⟨-, h2⟩ := cons_eq_cons_of_not_mem ':' p pre _ _ hp hrest hpre
  have h3 := List.append_cancel_left h2
  have h4 := List.append_cancel_right h3
  cases x
  cases y
  simp only at h4
  exact congrArg String.mk h4

end Rpg

namespace Rpg

theorem digitChar_isDigit (d : Nat) : (digitChar d).isDigit = true := by
  unfold digitChar
  rcases d with _ | _ | _ | _ | _ | _ | _ | _ | _ | d <;> simp

theorem natStrGo_digits :
    ∀ (fuel n : Nat) (acc : List Char), (∀ c ∈ acc, c.isDigit = true) →
      ∀ c ∈ natStrGo fuel n acc, c.isDigit = true := by
  intro fuel
  induction fuel with
  | zero => intro n acc hacc c hc; exact hacc c hc
  | succ f ih =>
    intro n acc hacc c hc
    unfold natStrGo at hc
    split at hc
    · rcases List.mem_cons.1 hc with rfl | hm
      · exact digitChar_isDigit _
      · exact hacc c hm
    · refine ih (n / 10) (digitChar (n % 10) :: acc) ?_ c hc
      intro c' hc'
      rcases List.mem_cons.1 hc' with rfl | hm
      · exact digitChar_isDigit _
      · exact hacc c' hm

theorem natStr_digits (n : Nat) : ∀ c ∈ (natStr n).data, c.isDigit = true := by
  intro c hc
  exact natStrGo_digits (n + 1) n [] (by simp) c hc

theorem natStr_no_colon (n : Nat) : ':' ∉ (natStr n).data := by
  intro hm
  have := natStr_digits n ':' hm
  simp at this

theorem no_colon_append {a b : String} (ha : ':' ∉ a.data) (hb : ':' ∉ b.data) :
    ':' ∉ (a ++ b).data := by
  rw [String.data_append]
  intro h
  rcases List.mem_append.1 h with h' | h'
  · exact ha h'
  · exact hb h'

/-- The duplicate-id message for id `s` under a colon-free path prefix is
recognized by `pdup x` exactly when `x = s`. -/
theorem pdup_dup_msg {prefixStr : String} (hpre : ':' ∉ prefixStr.data) {x s : String}
    (hx : validIdStr x = true) (hs : validIdStr s = true) :
    pdup x (prefixStr ++ ".id: duplicate id \x27" ++ s ++ "\x27") = true ↔ x = s := by
  have hdata : (prefixStr ++ ".id: duplicate id \x27" ++ s ++ "\x27").data =
      (prefixStr.data ++ ['.', 'i', 'd']) ++ dupTail s := by
    simp only [String.data_append, dupTail, List.append_assoc]
    rfl
  constructor
  · intro h
    unfold pdup at h
    rw [hdata] at h
    have hsuf := of_decide_eq_true h
    refine dupTail_suffix_force hx hs ?_ hsuf
    intro hm
    rcases List.mem_append.1 hm with h' | h'
    · exact hpre h'
    · revert h'
      decide
  · intro h
    subst h
    unfold pdup
    rw [hdata]
    simp only [decide_eq_true_eq]
    exact ⟨prefixStr.data ++ ['.', 'i', 'd'], by simp⟩

end Rpg

namespace Rpg

/-- Number of dict entries whose `id` field is the string `x`. -/
def idOccCount (es : List JVal) (x : String) : Nat :=
  es.countP (fun e =>
    match e with
    | .obj fs => match pyGet fs "id" with | .str s => s == x | _ => false
    | _ => false)

theorem contains_seenAdd (seen : List String) (s x : String) :
    (seenAdd seen s).contains x = (seen.contains x || s == x) := by
  unfold seenAdd
  split
  · rename_i h
    by_cases hsx : s = x
    · subst hsx
      have hm : s ∈ seen := by simpa using h
      simp [hm]
    · have hb : (s == x) = false := beq_eq_false_iff_ne.2 hsx
      simp [hb]
  · by_cases hsx : s = x
    · subst hsx
      simp [List.mem_append]
    · have hb : (s == x) = false := beq_eq_false_iff_ne.2 hsx
      simp [List.mem_append, hb, Ne.symm hsx]

theorem items_path_no_colon (idx : Nat) :
    ':' ∉ ("$items.items[" ++ (natStr idx ++ "]")).data :=
  no_colon_append (by decide) (no_colon_append (natStr_no_colon idx) (by decide))

theorem itemsLoop_count {x : String} (hx : validIdStr x = true) :
    ∀ (es : List JVal) (idx : Nat) (seen : List String) (issues out : List String),
      itemsLoop es idx seen issues = .ok out →
      out.countP (pdup x) =
        issues.countP (pdup x) +
          (if seen.contains x then idOccCount es x else idOccCount es x - 1) := by
  intro es
  induction es with
  | nil =>
    intro idx seen issues out h
    simp [itemsLoop] at h
    subst h
    simp [idOccCount]
  | cons e rest ih =>
    intro idx seen issues out h
    have hocc_obj : ∀ (ifs : List (String × JVal)) (sv : String),
        pyGet ifs "id" = .str sv →
        idOccCount (.obj ifs :: rest) x = idOccCount rest x + (if sv == x then 1 else 0) := by
      intro ifs sv hid
      simp [idOccCount, List.countP_cons, hid]
    cases e
    case obj ifs =>
      rcases hid : pyGet ifs "id" with _ | b | n | q | sv | xs | ms
      case str =>
        by_cases hvalid : validIdStr sv = true
        · by_cases hseen : seen.contains sv = true
          · -- duplicate occurrence: one dup message, seen unchanged (add is a no-op)
            simp only [itemsLoop, hid, hvalid, hseen, if_true] at h
            rcases hvi : validate_item (.obj ifs)
                ("$items.items[" ++ natStr idx ++ "]")
                (issues ++ ["$items.items[" ++ natStr idx ++ "]" ++
                  ".id: duplicate id \x27" ++ sv ++ "\x27"]) with e' | mid
            · rw [hvi] at h
              simp at h
            · rw [hvi] at h
              simp only [except_bind_ok] at h
              obtain ⟨extra, hmid, hA⟩ := (validate_item_spec _ _ _).2 mid hvi
              have hcnt := ih (idx + 1) (seenAdd seen sv) mid out h
              rw [contains_seenAdd, hmid] at hcnt
              simp only [List.countP_append,
                countP_pdup_eq_zero_of_allLastOk hA, add_zero] at hcnt
              rw [hocc_obj ifs sv hid]
              by_cases hsx : sv = x
              · subst hsx
                have hpd : pdup sv ("$items.items[" ++ natStr idx ++ "]" ++
                    ".id: duplicate id \x27" ++ sv ++ "\x27") = true :=
                  (pdup_dup_msg (items_path_no_colon idx) hx hvalid).2 rfl
                simp only [hseen, Bool.true_or, if_true, List.countP_cons, List.countP_nil,
                  hpd, beq_self_eq_true] at hcnt ⊢
                omega
              · have hpd : pdup x ("$items.items[" ++ natStr idx ++ "]" ++
                    ".id: duplicate id \x27" ++ sv ++ "\x27") = false := by
                  rw [Bool.eq_false_iff]
                  intro hc
                  exact hsx ((pdup_dup_msg (items_path_no_colon idx) hx hvalid).1 hc).symm
                have hb : (sv == x) = false := beq_eq_false_iff_ne.2 hsx
                simp only [hb, Bool.or_false, List.countP_cons, List.countP_nil, hpd] at hcnt ⊢
                by_cases hsnx : seen.contains x = true <;>
                  simp only [hsnx, if_true, Bool.false_eq_true, if_false] at hcnt ⊢ <;>
                  omega
          · -- first occurrence: no message, id added to the seen set
            simp only [itemsLoop, hid, hvalid, hseen, if_true, Bool.false_eq_true,
              if_false] at h
            rcases hvi : validate_item (.obj ifs)
                ("$items.items[" ++ natStr idx ++ "]") issues with e' | mid
            · rw [hvi] at h
              simp at h
            · rw [hvi] at h
              simp only [except_bind_ok] at h
              obtain ⟨extra, hmid, hA⟩ := (validate_item_spec _ _ _).2 mid hvi
              have hcnt := ih (idx + 1) (seenAdd seen sv) mid out h
              rw [contains_seenAdd, hmid] at hcnt
              simp only [List.countP_append,
                countP_pdup_eq_zero_of_allLastOk hA, add_zero] at hcnt
              rw [hocc_obj ifs sv hid]
              by_cases hsx : sv = x
              · subst hsx
                have hsnx : seen.contains sv = false := by
                  rw [Bool.eq_false_iff]
                  exact hseen
                simp only [hsnx, Bool.false_or, beq_self_eq_true, if_true,
                  Bool.false_eq_true, if_false] at hcnt ⊢
                omega
              · have hb : (sv == x) = false := beq_eq_false_iff_ne.2 hsx
                simp only [hb, Bool.or_false, Bool.false_eq_true, if_false, add_zero] at hcnt ⊢
                omega
        · -- invalid id: no duplicate bookkeeping at all
          simp only [itemsLoop, hid, hvalid, Bool.false_eq_true, if_false] at h
          rcases hvi : validate_item (.obj ifs)
              ("$items.items[" ++ natStr idx ++ "]") issues with e' | mid
          · rw [hvi] at h
            simp at h
          · rw [hvi] at h
            simp only [except_bind_ok] at h
            obtain ⟨extra, hmid, hA⟩ := (validate_item_spec _ _ _).2 mid hvi
            have hcnt := ih (idx + 1) seen mid out h
            rw [hmid] at hcnt
            simp only [List.countP_append,
              countP_pdup_eq_zero_of_allLastOk hA, add_zero] at hcnt
            rw [hocc_obj ifs sv hid]
            have hb : (sv == x) = false := by
              rw [beq_eq_false_iff_ne]
              intro hsx
              exact hvalid (hsx ▸ hx)
            simp only [hb, Bool.false_eq_true, if_false, add_zero]
            exact hcnt
      all_goals {
        simp only [itemsLoop, hid] at h
        rcases hvi : validate_item (.obj ifs)
            ("$items.items[" ++ natStr idx ++ "]") issues with e' | mid
        · rw [hvi] at h
          simp at h
        · rw [hvi] at h
          simp only [except_bind_ok] at h
          obtain ⟨extra, hmid, hA⟩ := (validate_item_spec _ _ _).2 mid hvi
          have hcnt := ih (idx + 1) seen mid out h
          rw [hmid] at hcnt
          simp only [List.countP_append,
            countP_pdup_eq_zero_of_allLastOk hA, add_zero] at hcnt
          have hocc : idOccCount (JVal.obj ifs :: rest) x = idOccCount rest x := by
            simp [idOccCount, List.countP_cons, hid]
          rw [hocc]
          exact hcnt
      }
    all_goals {
      simp only [itemsLoop] at h
      have hcnt := ih (idx + 1) seen
        (issues ++ ["$items.items[" ++ natStr idx ++ "]" ++ ": expected object"]) out h
      have hpd : pdup x ("$items.items[" ++ natStr idx ++ "]" ++ ": expected object") = false :=
        pdup_eq_false_of_lastOk (lastOk_of_append _ _ (by decide) (by decide))
      rw [hcnt]
      simp [List.countP_append, List.countP_cons, hpd, idOccCount]
    }

end Rpg

namespace Rpg

theorem validate_item_pack_count {x : String} (hx : validIdStr x = true)
    (sv : JVal) (es : List JVal) (out : List String)
    (h : validate_item_pack (.obj [("schemaVersion", sv), ("items", .arr es)]) = .ok out) :
    out.countP (pdup x) = idOccCount es x - 1 := by
  have h1 : pyGet [("schemaVersion", sv), ("items", JVal.arr es)] "schemaVersion" = sv := rfl
  have h2 : pyGet [("schemaVersion", sv), ("items", JVal.arr es)] "items" = .arr es := rfl
  simp only [validate_item_pack, h1, h2] at h
  by_cases hsv : pyEqInt sv 1 = true
  · simp only [hsv, not_true, if_false] at h
    have := itemsLoop_count hx es 0 [] [] out h
    simpa using this
  · simp only [hsv, Bool.false_eq_true, not_false_eq_true, if_true, List.nil_append] at h
    have := itemsLoop_count hx es 0 [] ["$items.schemaVersion: expected 1"] out h
    have hpd : pdup x "$items.schemaVersion: expected 1" = false :=
      pdup_eq_false_of_lastOk (by simp only [lastOk]; decide)
    simp only [List.countP_cons, List.countP_nil, hpd, if_false] at this
    simpa using this

end Rpg

namespace Rpg

/-- A quest document carrying only an `id` field. -/
def mkIdQuest (v : JVal) : JVal := .obj [("id", v)]

theorem validate_quest_idOnly (v : JVal) (p : String) (issues : List String)
    (qids iids rids : List String) :
    validate_quest (mkIdQuest v) p issues qids iids rids =
      .ok ((((issues ++ [p ++ ".title: required non-empty string"]) ++
        [p ++ ".description: required non-empty string"]) ++
        [p ++ ".steps: expected non-empty array"]) ++
        [p ++ ".rewards: rewards must be an object"]) := by
  simp [validate_quest, mkIdQuest, strFieldMissing, pyGet, pyGetD, dget, isStrV,
    _validate_repeat, pyInStrSet, pyEqStr, _validate_rewards, isNullV, QUEST_DIFFICULTIES,
    QUEST_REPEAT_KINDS, isBoolV, String.append_assoc]

theorem quests_path_no_colon (idx : Nat) :
    ':' ∉ ("$quests.quests[" ++ (natStr idx ++ "]")).data :=
  no_colon_append (by decide) (no_colon_append (natStr_no_colon idx) (by decide))

theorem questIdsPass_count {x : String} (hx : validIdStr x = true) :
    ∀ (vs : List JVal) (idx : Nat) (qids issues : List String),
      ((questIdsPass (vs.map mkIdQuest) idx qids issues).2).countP (pdup x) =
        issues.countP (pdup x) +
          (if qids.contains x then idOccCount (vs.map mkIdQuest) x
           else idOccCount (vs.map mkIdQuest) x - 1) := by
  intro vs
  induction vs with
  | nil =>
    intro idx qids issues
    simp [questIdsPass, idOccCount]
  | cons v rest ih =>
    intro idx qids issues
    cases v
    case str s =>
      have hocc : idOccCount (JVal.obj [("id", JVal.str s)] :: List.map mkIdQuest rest) x =
          idOccCount (List.map mkIdQuest rest) x + (if s == x then 1 else 0) := by
        simp [idOccCount, List.countP_cons, pyGet, dget]
      by_cases hvalid : validIdStr s = true
      · by_cases hqid : qids.contains s = true
        · simp only [List.map_cons, questIdsPass, mkIdQuest, pyGet, dget, if_true,
            Option.getD_some, hvalid, hqid]
          rw [ih (idx + 1) qids
            (issues ++ ["$quests.quests[" ++ natStr idx ++ "]" ++
              ".id: duplicate id \x27" ++ s ++ "\x27"])]
          rw [hocc]
          by_cases hsx : s = x
          · subst hsx
            have hpd : pdup s ("$quests.quests[" ++ natStr idx ++ "]" ++
                ".id: duplicate id \x27" ++ s ++ "\x27") = true :=
              (pdup_dup_msg (quests_path_no_colon idx) hx hvalid).2 rfl
            simp only [List.countP_append, List.countP_cons, List.countP_nil, hpd, if_true,
              beq_self_eq_true, hqid]
            omega
          · have hpd : pdup x ("$quests.quests[" ++ natStr idx ++ "]" ++
                ".id: duplicate id \x27" ++ s ++ "\x27") = false := by
              rw [Bool.eq_false_iff]
              intro hc
              exact hsx ((pdup_dup_msg (quests_path_no_colon idx) hx hvalid).1 hc).symm
            have hb : (s == x) = false := beq_eq_false_iff_ne.2 hsx
            simp only [List.countP_append, List.countP_cons, List.countP_nil, hpd, hb,
              Bool.false_eq_true, if_false, add_zero]
        · simp only [List.map_cons, questIdsPass, mkIdQuest, pyGet, dget, if_true,
            Option.getD_some, hvalid, hqid, Bool.false_eq_true, if_false]
          rw [ih (idx + 1) (qids ++ [s]) issues]
          rw [hocc]
          have hqapp : (qids ++ [s]).contains x = (qids.contains x || s == x) := by
            by_cases hsx : s = x
            · subst hsx
              simp [List.mem_append]
            · have hb : (s == x) = false := beq_eq_false_iff_ne.2 hsx
              simp [List.mem_append, hb, Ne.symm hsx]
          rw [hqapp]
          by_cases hsx : s = x
          · subst hsx
            have hq : qids.contains s = false := by
              rw [Bool.eq_false_iff]
              exact hqid
            simp only [hq, beq_self_eq_true, Bool.false_or, if_true, Bool.false_eq_true,
              if_false]
            omega
          · have hb : (s == x) = false := beq_eq_false_iff_ne.2 hsx
            simp only [hb, Bool.or_false, Bool.false_eq_true, if_false, add_zero]
      · simp only [List.map_cons, questIdsPass, mkIdQuest, pyGet, dget, if_true,
          Option.getD_some, hvalid, Bool.false_eq_true, if_false]
        rw [ih (idx + 1) qids
          (issues ++ ["$quests.quests[" ++ natStr idx ++ "]" ++
            ".id: invalid id, expected ^[a-z0-9_]+$"])]
        rw [hocc]
        have hb : (s == x) = false := by
          rw [beq_eq_false_iff_ne]
          intro hsx
          exact hvalid (hsx ▸ hx)
        have hpd : pdup x ("$quests.quests[" ++ natStr idx ++ "]" ++
            ".id: invalid id, expected ^[a-z0-9_]+$") = false :=
          pdup_eq_false_of_lastOk (lastOk_of_append _ _ (by decide) (by decide))
        simp only [List.countP_append, List.countP_cons, List.countP_nil, hpd, hb,
          Bool.false_eq_true, if_false, add_zero]
    all_goals {
      simp only [List.map_cons, questIdsPass, mkIdQuest, pyGet, dget, if_true,
        Option.getD_some]
      rw [ih (idx + 1) qids
        (issues ++ ["$quests.quests[" ++ natStr idx ++ "]" ++
          ".id: invalid id, expected ^[a-z0-9_]+$"])]
      have hpd : pdup x ("$quests.quests[" ++ natStr idx ++ "]" ++
          ".id: invalid id, expected ^[a-z0-9_]+$") = false :=
        pdup_eq_false_of_lastOk (lastOk_of_append _ _ (by decide) (by decide))
      simp [idOccCount, List.countP_cons, List.countP_append, List.countP_nil, hpd,
        pyGet, dget]
    }

end Rpg

namespace Rpg

theorem questsPass2_count {x : String} :
    ∀ (vs : List JVal) (idx : Nat) (issues out : List String)
      (qids iids rids : List String),
      questsPass2 (vs.map mkIdQuest) idx issues qids iids rids = .ok out →
      out.countP (pdup x) = issues.countP (pdup x) := by
  intro vs
  induction vs with
  | nil =>
    intro idx issues out qids iids rids h
    simp only [List.map_nil, questsPass2, except_pure_eq_ok, Except.ok.injEq] at h
    rw [← h]
  | cons v rest ih =>
    intro idx issues out qids iids rids h
    simp only [List.map_cons, questsPass2, mkIdQuest] at h
    have hq := validate_quest_idOnly v ("$quests.quests[" ++ natStr idx ++ "]")
      issues qids iids rids
    simp only [mkIdQuest] at hq
    rw [hq] at h
    simp only [except_bind_ok] at h
    have := ih (idx + 1) _ out qids iids rids h
    rw [this]
    have hmsg : ∀ (suf : String), suf.data ≠ [] → suf.data.getLast? ≠ some '\x27' →
        pdup x ("$quests.quests[" ++ natStr idx ++ "]" ++ suf) = false := fun suf h1 h2 =>
      pdup_eq_false_of_lastOk (lastOk_of_append _ _ h1 h2)
    simp only [List.countP_append, List.countP_cons, List.countP_nil,
      hmsg ".title: required non-empty string" (by decide) (by decide),
      hmsg ".description: required non-empty string" (by decide) (by decide),
      hmsg ".steps: expected non-empty array" (by decide) (by decide),
      hmsg ".rewards: rewards must be an object" (by decide) (by decide),
      Bool.false_eq_true, if_false, add_zero]

end Rpg

namespace Rpg

theorem validate_quest_pack_count {x : String} (hx : validIdStr x = true)
    (sv : JVal) (vs : List JVal) (iids rids : List String) (out : List String)
    (h : validate_quest_pack (.obj [("schemaVersion", sv), ("quests", .arr (vs.map mkIdQuest))])
        iids rids = .ok out) :
    out.countP (pdup x) = idOccCount (vs.map mkIdQuest) x - 1 := by
  have h1 : pyGet [("schemaVersion", sv), ("quests", JVal.arr (vs.map mkIdQuest))]
      "schemaVersion" = sv := rfl
  have h2 : pyGet [("schemaVersion", sv), ("quests", JVal.arr (vs.map mkIdQuest))]
      "quests" = .arr (vs.map mkIdQuest) := rfl
  simp only [validate_quest_pack, h1, h2] at h
  by_cases hsv : pyEqInt sv 1 = true
  · simp only [hsv, not_true, if_false] at h
    have hqc := questsPass2_count (x := x) vs 0 _ out _ iids rids h
    rw [hqc, questIdsPass_count hx vs 0 [] []]
    simp
  · simp only [hsv, Bool.false_eq_true, not_false_eq_true, if_true, List.nil_append] at h
    have hqc := questsPass2_count (x := x) vs 0 _ out _ iids rids h
    rw [hqc, questIdsPass_count hx vs 0 [] ["$quests.schemaVersion: expected 1"]]
    have hpd : pdup x "$quests.schemaVersion: expected 1" = false :=
      pdup_eq_false_of_lastOk (by simp only [lastOk]; decide)
    simp [hpd]

end Rpg

namespace Rpg

/-- **C6**: in both `validate_item_pack` and `validate_quest_pack`, a valid id
`x` occurring `k` times among the entries yields exactly `k - 1` issue lines
ending in `: duplicate id \x27x\x27` (one per occurrence after the first, not one
per pair).  `pdup x` recognises exactly those issue strings, and `idOccCount`
counts the entries whose `id` field is the string `x`.  The quest-pack side is
stated for packs of single-field quest documents (`mkIdQuest`), which isolates
the id handling from the unrelated per-quest field issues. -/
theorem claim_C6_duplicate_id_count :
    (∀ (sv : JVal) (es : List JVal) (x : String) (out : List String),
      validIdStr x = true →
      validate_item_pack (.obj [("schemaVersion", sv), ("items", .arr es)]) = .ok out →
      out.countP (pdup x) = idOccCount es x - 1) ∧
    (∀ (sv : JVal) (vs : List JVal) (x : String) (iids rids : List String)
      (out : List String),
      validIdStr x = true →
      validate_quest_pack
          (.obj [("schemaVersion", sv), ("quests", .arr (vs.map mkIdQuest))])
          iids rids = .ok out →
      out.countP (pdup x) = idOccCount (vs.map mkIdQuest) x - 1) :=
  ⟨fun sv es x out hx h => validate_item_pack_count hx sv es out h,
   fun sv vs x iids rids out hx h => validate_quest_pack_count hx sv vs iids rids out h⟩

def c6ItemsEs : List JVal :=
  [.obj [("id", .str "dup")], .obj [("id", .str "aa")],
   .obj [("id", .str "dup")], .obj [("id", .str "dup")]]

def c6ItemsOut : List String :=
  (validate_item_pack
      (.obj [("schemaVersion", .int 1), ("items", .arr c6ItemsEs)])).toOption.getD []

def c6QuestVs : List JVal := [.str "dup", .str "aa", .str "dup", .str "dup"]

def c6QuestsOut : List String :=
  (validate_quest_pack
      (.obj [("schemaVersion", .int 1), ("quests", .arr (c6QuestVs.map mkIdQuest))])
      [] []).toOption.getD []

/-- Witness for C6: a pack whose id `dup` occurs three times yields exactly two
duplicate-id issues, on both the items side and the quests side. -/
theorem claim_C6_witness :
    (validIdStr "dup" = true ∧
      c6ItemsOut.countP (pdup "dup") = idOccCount c6ItemsEs "dup" - 1 ∧
      idOccCount c6ItemsEs "dup" - 1 = 2) ∧
    (validIdStr "dup" = true ∧
      c6QuestsOut.countP (pdup "dup") = idOccCount (c6QuestVs.map mkIdQuest) "dup" - 1 ∧
      idOccCount (c6QuestVs.map mkIdQuest) "dup" - 1 = 2) :=
  ⟨⟨by decide,
    claim_C6_duplicate_id_count.1 (.int 1) c6ItemsEs "dup" c6ItemsOut (by decide) (by rfl),
    by decide⟩,
   ⟨by decide,
    claim_C6_duplicate_id_count.2 (.int 1) c6QuestVs "dup" [] [] c6QuestsOut
      (by decide) (by rfl),
    by decide⟩⟩

end Rpg

namespace Rpg

def c9Args : StoreAddArgs :=
  { item_id := "ghost_item", name := .null, buy_price := .int 10, sell_price := .null,
    stock := .null, unavailable := false, description := .null, category := .null,
    purchase_limit := .null, required_role := .null }

/-- Witness for C9: adding the unknown id `ghost_item` to an empty store pack
reports `NotFound`, saves nothing, and leaves the store view unchanged. -/
theorem claim_C9_witness :
    (["sword", "shield"].contains "ghost_item" = false) ∧
    ((cmd_store_add ["sword", "shield"] [] (.obj []) c9Args).err =
        some (.notFound "Item" "ghost_item") ∧
      (cmd_store_add ["sword", "shield"] [] (.obj []) c9Args).saved = false ∧
      storeItemsView (cmd_store_add ["sword", "shield"] [] (.obj []) c9Args).store_pack =
        storeItemsView (.obj [])) :=
  ⟨by decide, claim_C9_store_add_not_found [] ["sword", "shield"] [] c9Args (by decide)⟩

end Rpg

namespace Rpg

theorem okOrUnhash_ite {α : Type} (c : Prop) [Decidable c] {a b : Except String α}
    (ha : OkOrUnhash a) (hb : OkOrUnhash b) : OkOrUnhash (if c then a else b) := by
  split <;> assumption

theorem isIntV_of_is_int {v : JVal} {mn mx : Option Int} (h : _is_int v mn mx = true) :
    isIntV v = true := by
  by_cases hb : isIntV v = true
  · exact hb
  · simp [_is_int, hb] at h

theorem okOrUnhash_gather (sfs : List (String × JVal)) (path : String)
    (issues : List String) (item_ids : List String) :
    OkOrUnhash (_validate_gather_step sfs path issues item_ids) := by
  simp only [_validate_gather_step]
  apply okOrUnhash_bind (okOrUnhash_pyInStrSet _ _)
  intro inAct
  by_cases hmm : isIntV (pyGet sfs "locationTierMin") = true ∧
      isIntV (pyGet sfs "locationTierMax") = true
  · obtain ⟨x, hx⟩ := pyLtNum_ok (isNumV_of_isIntV hmm.2) (isNumV_of_isIntV hmm.1)
    simp only [hmm, and_self, if_true, hx, except_bind_ok]
    exact okOrUnhash_pure _
  · simp only [hmm, if_false]
    exact okOrUnhash_pure _

theorem okOrUnhash_validate_step (step : JVal) (path : String) (issues : List String)
    (item_ids recipe_ids : List String) :
    OkOrUnhash (validate_step step path issues item_ids recipe_ids) := by
  cases step
  case obj sfs =>
    simp only [validate_step]
    apply okOrUnhash_bind (okOrUnhash_pyInStrSet _ _)
    intro inKinds
    apply okOrUnhash_ite
    · exact okOrUnhash_pure _
    · rcases pyGet sfs "kind" with _ | b | n | q | k | xs | ms
      case str =>
        apply okOrUnhash_ite
        · exact okOrUnhash_gather _ _ _ _
        all_goals repeat first | apply okOrUnhash_ite | exact okOrUnhash_pure _
      all_goals exact okOrUnhash_pure _
  all_goals exact okOrUnhash_pure _

end Rpg

namespace Rpg

theorem okOrUnhash_repeat (repeatV : JVal) (path : String) (issues : List String) :
    OkOrUnhash (_validate_repeat repeatV path issues) := by
  cases repeatV
  case obj rfs =>
    simp only [_validate_repeat]
    apply okOrUnhash_bind (okOrUnhash_pyInStrSet _ _)
    intro inKinds
    repeat first | apply okOrUnhash_ite | exact okOrUnhash_pure _
  all_goals exact okOrUnhash_pure _

theorem okOrUnhash_prereq (prerequisites : JVal) (path : String) (issues : List String)
    (known_quest_ids : List String) :
    OkOrUnhash (_validate_prerequisites prerequisites path issues known_quest_ids) := by
  cases prerequisites
  case obj pfs =>
    simp only [_validate_prerequisites]
    apply okOrUnhash_ite
    · apply okOrUnhash_bind (okOrUnhash_pyInStrSet _ _)
      intro inProf
      apply okOrUnhash_bind (okOrUnhash_pure _)
      intro y
      rcases pyGetD pfs "requiresQuestsCompleted" (.arr []) with _ | b | n | q | s | xs | ms <;>
        exact okOrUnhash_pure _
    · apply okOrUnhash_bind (okOrUnhash_pure _)
      intro y
      rcases pyGetD pfs "requiresQuestsCompleted" (.arr []) with _ | b | n | q | s | xs | ms <;>
        exact okOrUnhash_pure _
  all_goals exact okOrUnhash_pure _

theorem okOrUnhash_dite {α : Type} (c : Prop) [Decidable c] {a b : Except String α}
    (ha : c → OkOrUnhash a) (hb : ¬ c → OkOrUnhash b) : OkOrUnhash (if c then a else b) := by
  split
  next h => exact ha h
  next h => exact hb h

theorem okOrUnhash_pyLtNum_of_nn {v : JVal} {mn mx : Option Int} (n : Int)
    (h : ¬ ¬ _is_int v mn mx = true) : OkOrUnhash (pyLtNum (.int n) v) :=
  okOrUnhash_of_ex
    (pyLtNum_ok (by simp [isNumV]) (isNumV_of_isIntV (isIntV_of_is_int (not_not.1 h))))

theorem okOrUnhash_rewards (rewards : JVal) (path : String) (issues : List String)
    (item_ids : List String) :
    OkOrUnhash (_validate_rewards rewards path issues item_ids) := by
  cases rewards
  case obj rfs =>
    simp only [_validate_rewards]
    repeat first
      | exact okOrUnhash_pure _
      | (apply okOrUnhash_bind (okOrUnhash_pyLtNum_of_nn 0 (by assumption)); intro pos)
      | simp only [except_pure_eq_ok, except_bind_ok]
      | (apply okOrUnhash_dite <;> intro h)
  all_goals exact okOrUnhash_pure _

theorem okOrUnhash_stepsLoop :
    ∀ (steps : List JVal) (idx : Nat) (path : String) (issues : List String)
      (item_ids recipe_ids : List String),
      OkOrUnhash (stepsLoop steps idx path issues item_ids recipe_ids) := by
  intro steps
  induction steps with
  | nil => intro idx path issues iids rids; exact okOrUnhash_pure _
  | cons s rest ih =>
    intro idx path issues iids rids
    simp only [stepsLoop]
    apply okOrUnhash_bind (okOrUnhash_validate_step _ _ _ _ _)
    intro issues2
    exact ih _ _ _ _ _

theorem okOrUnhash_validate_quest (quest : JVal) (path : String) (issues : List String)
    (quest_ids item_ids recipe_ids : List String) :
    OkOrUnhash (validate_quest quest path issues quest_ids item_ids recipe_ids) := by
  cases quest
  case obj qfs =>
    simp only [validate_quest]
    apply okOrUnhash_bind (okOrUnhash_of_ex (strFieldMissing_ok qfs "title"))
    intro b1
    apply okOrUnhash_bind (okOrUnhash_of_ex (strFieldMissing_ok qfs "description"))
    intro b2
    apply okOrUnhash_bind (okOrUnhash_pyInStrSet _ _)
    intro inDiff
    apply okOrUnhash_bind (okOrUnhash_repeat _ _ _)
    intro issues2
    apply okOrUnhash_ite
    · apply okOrUnhash_bind (okOrUnhash_prereq _ _ _ _)
      intro y3
      rcases pyGet qfs "steps" with _ | b | n | q | s | xs | ms <;>
      repeat first
        | exact okOrUnhash_rewards _ _ _ _
        | simp only [except_pure_eq_ok, except_bind_ok]
        | (apply okOrUnhash_bind (okOrUnhash_stepsLoop _ _ _ _ _ _); intro y4)
        | apply okOrUnhash_ite
    · simp only [except_pure_eq_ok, except_bind_ok]
      rcases pyGet qfs "steps" with _ | b | n | q | s | xs | ms <;>
      repeat first
        | exact okOrUnhash_rewards _ _ _ _
        | simp only [except_pure_eq_ok, except_bind_ok]
        | (apply okOrUnhash_bind (okOrUnhash_stepsLoop _ _ _ _ _ _); intro y4)
        | apply okOrUnhash_ite
  all_goals exact okOrUnhash_pure _

end Rpg

namespace Rpg

theorem okOrUnhash_questsPass2 :
    ∀ (quests : List JVal) (idx : Nat) (issues : List String)
      (quest_ids item_ids recipe_ids : List String),
      OkOrUnhash (questsPass2 quests idx issues quest_ids item_ids recipe_ids) := by
  intro quests
  induction quests with
  | nil => intro idx issues qids iids rids; exact okOrUnhash_pure _
  | cons q rest ih =>
    intro idx issues qids iids rids
    cases q
    case obj qfs =>
      simp only [questsPass2]
      apply okOrUnhash_bind (okOrUnhash_validate_quest _ _ _ _ _ _)
      intro issues2
      exact ih _ _ _ _ _
    all_goals exact ih _ _ _ _ _

theorem okOrUnhash_validate_quest_pack (quests_pack : JVal)
    (item_ids recipe_ids : List String) :
    OkOrUnhash (validate_quest_pack quests_pack item_ids recipe_ids) := by
  cases quests_pack
  case obj fs =>
    simp only [validate_quest_pack]
    rcases pyGet fs "quests" with _ | b | n | q | s | xs | ms
    case arr => exact okOrUnhash_questsPass2 _ _ _ _ _ _
    all_goals exact okOrUnhash_pure _
  all_goals exact okOrUnhash_pure _

theorem okOrUnhash_itemsLoop :
    ∀ (items : List JVal) (idx : Nat) (seen issues : List String),
      OkOrUnhash (itemsLoop items idx seen issues) := by
  intro items
  induction items with
  | nil => intro idx seen issues; exact okOrUnhash_pure _
  | cons item rest ih =>
    intro idx seen issues
    cases item
    case obj ifs =>
      simp only [itemsLoop]
      apply okOrUnhash_bind (fun e he => (validate_item_spec (.obj ifs) _ _).1 e he)
      intro issues2
      exact ih _ _ _
    all_goals exact ih _ _ _

theorem okOrUnhash_validate_item_pack (items_pack : JVal) :
    OkOrUnhash (validate_item_pack items_pack) := by
  cases items_pack
  case obj fs =>
    simp only [validate_item_pack]
    rcases pyGet fs "items" with _ | b | n | q | s | xs | ms
    case arr => exact okOrUnhash_itemsLoop _ _ _ _
    all_goals exact okOrUnhash_pure _
  all_goals exact okOrUnhash_pure _

end Rpg

namespace Rpg

theorem okOrUnhash_validate_packs (quests_pack items_pack recipes_pack : JVal) :
    OkOrUnhash (validate_packs quests_pack items_pack recipes_pack) := by
  simp only [validate_packs]
  apply okOrUnhash_bind (okOrUnhash_validate_item_pack _)
  intro item_issues
  apply okOrUnhash_bind (okOrUnhash_validate_quest_pack _ _ _)
  intro quest_issues
  exact okOrUnhash_pure _

/-- The quests pack used to exhibit the exception: its only quest carries a
`difficulty` that is a list, which Python cannot hash when evaluating
`difficulty in QUEST_DIFFICULTIES`. -/
def c10QuestsPack : JVal :=
  .obj [("schemaVersion", .int 1),
        ("quests", .arr [.obj [("id", .str "q"), ("difficulty", .arr [])]])]

def c10ItemsPack : JVal := .obj [("schemaVersion", .int 1), ("items", .arr [])]

def c10RecipesPack : JVal := .obj [("schemaVersion", .int 1), ("recipes", .arr [])]

/-- **C10** (counterexample): `validate_packs` does *not* return normally on
every input: a quest whose `difficulty` field is a list makes
`difficulty in QUEST_DIFFICULTIES` raise `TypeError: unhashable type`, which
propagates out of `validate_packs` instead of being reported as an issue.
`validate_quest` likewise raises on the same quest document. -/
theorem claim_C10_counterexample :
    validate_packs c10QuestsPack c10ItemsPack c10RecipesPack =
      .error unhashableTypeErrMsg ∧
    validate_quest (.obj [("id", .str "q"), ("difficulty", .arr [])]) "$q" [] [] [] [] =
      .error unhashableTypeErrMsg := ⟨rfl, rfl⟩

/-- **C10** (amended): the only exception `validate_packs` or `validate_quest`
can raise is the unhashable-`TypeError` coming from a `x in frozenset_of_strs`
membership test on an unhashable (list or dict) value; for every input, the
result is either a normal return with a list of issue strings or that single
`TypeError`. Malformed *shapes* (non-dict packs, missing fields, wrong-typed
fields, non-dict entries) as such never raise. -/
theorem claim_C10_amended :
    (∀ (quests_pack items_pack recipes_pack : JVal) (e : String),
      validate_packs quests_pack items_pack recipes_pack = .error e →
      e = unhashableTypeErrMsg) ∧
    (∀ (quest : JVal) (path : String) (issues quest_ids item_ids recipe_ids : List String)
      (e : String),
      validate_quest quest path issues quest_ids item_ids recipe_ids = .error e →
      e = unhashableTypeErrMsg) :=
  ⟨fun q i r e he => okOrUnhash_validate_packs q i r e he,
   fun q p is qs iis rs e he => okOrUnhash_validate_quest q p is qs iis rs e he⟩

/-- Witness for the amended C10, at the concrete erroring input of the
counterexample. -/
theorem claim_C10_witness :
    validate_packs c10QuestsPack c10ItemsPack c10RecipesPack =
      .error unhashableTypeErrMsg ∧
    unhashableTypeErrMsg = unhashableTypeErrMsg :=
  ⟨rfl, claim_C10_amended.1 c10QuestsPack c10ItemsPack c10RecipesPack
    unhashableTypeErrMsg rfl⟩

end Rpg
